import Mathlib

/-!
Shallow embedding of the quote-aggregation core of the repository:
currency normalization, region/category mapping, bucket grouping with
statistics, screenshot-prioritized evidence sampling, and the dense
cost-matrix generator.  JavaScript numbers are modelled as rationals,
objects as insertion-ordered association lists, `null`/`undefined` via
`Option`, and the `Math.random()` draws of the evidence shuffle as an
explicit stream of rationals threaded through the computation.
-/

set_option maxRecDepth 8000

/-- JavaScript `Math.round`: round half toward positive infinity. -/
def jsRound (x : ℚ) : ℤ := ⌊x + 1/2⌋

/-- JavaScript `Math.min` on two numbers (NaN aside). -/
def jsMin (a b : ℚ) : ℚ := if a ≤ b then a else b

/-- JavaScript `Math.max` on two numbers (NaN aside). -/
def jsMax (a b : ℚ) : ℚ := if b ≤ a then a else b

/-- The `Math.min(...l)` for a nonempty spread; the empty case (`+Infinity` in JS)
is unreachable in this code base because buckets are never empty. -/
def listMin : List ℚ → ℚ
  | [] => 0
  | x :: xs => xs.foldl jsMin x

/-- The `Math.max(...l)` for a nonempty spread; empty case unreachable. -/
def listMax : List ℚ → ℚ
  | [] => 0
  | x :: xs => xs.foldl jsMax x

/-- The `l.reduce((sum, price) => sum + price, 0)`. -/
def listSum (l : List ℚ) : ℚ := l.foldl (· + ·) 0

/-- Property read `obj[k]` on a JavaScript object, modelled as an
insertion-ordered association list; absent key is `undefined`. -/
def lookupA {κ α : Type} [DecidableEq κ] : List (κ × α) → κ → Option α
  | [], _ => none
  | (k', v) :: rest, k => if k' = k then some v else lookupA rest k

/-- Property write `obj[k] = v`: overwrite in place, or append a new key. -/
def setA {κ α : Type} [DecidableEq κ] : List (κ × α) → κ → α → List (κ × α)
  | [], k, v => [(k, v)]
  | (k', v') :: rest, k, v =>
      if k' = k then (k', v) :: rest else (k', v') :: setA rest k v

/-- JS truthiness of a `string | null | undefined` value: `null`,
`undefined` and the empty string are falsy. -/
def strTruthy : Option String → Bool
  | none => false
  | some s => s ≠ ""

namespace Flight

/-- The `FlightQuote` record (flight-data processor source). -/
structure FlightQuote where
  departure_airport : String
  destination_airport : String
  departure_city : String
  destination_city : String
  origin_city_region : String
  destination_city_region : String
  flight_date : String
  departure_time : String
  arrival_time : String
  total_flight_time : String
  airline_code : String
  cabin_bags : ℚ
  checked_bags : ℚ
  num_stops : ℚ
  price : ℚ
  currency : String
  num_adults : ℚ
  num_children : ℚ
  num_infants : ℚ
  passenger_type : String
  scraping_datetime : String
  source : String
  screenshot_url : Option String
  booking_url : String
deriving DecidableEq

/-- The `FlightDataSet` container; the untyped (`any`) `data_sources` and
`statistics` fields are never read by the processor and are omitted. -/
structure FlightDataSet where
  aggregation_timestamp : String
  total_quotes : ℚ
  flight_quotes : List FlightQuote
deriving DecidableEq

/-- The `EvidenceItem` record. -/
structure EvidenceItem where
  departure_city : String
  destination_city : String
  airline_code : String
  price : ℚ
  currency : String
  priceUSD : ℚ
  flight_date : String
  total_flight_time : String
  source : String
  screenshot_url : Option String
  booking_url : String
  scraping_datetime : String
deriving DecidableEq

/-- The `RegionMatrixData` record. -/
structure RegionMatrixData where
  averagePriceUSD : ℚ
  sampleCount : ℕ
  evidence : List EvidenceItem
  minPrice : ℚ
  maxPrice : ℚ
deriving DecidableEq

/-- The `CURRENCY_RATES` object of the flight processor. -/
def CURRENCY_RATES (currency : String) : Option ℚ :=
  if currency = "EUR" then some (109/100)
  else if currency = "GBP" then some (127/100)
  else if currency = "USD" then some 1
  else none

/-- The `REGION_MAPPING` object of the flight processor. -/
def REGION_MAPPING (region : String) : Option String :=
  if region = "NORTH_AMERICA" then some "north-america"
  else if region = "LATAM" then some "latam"
  else if region = "EMEA" then some "emea"
  else if region = "ASIA" then some "apac"
  else if region = "INDIA" then some "india"
  else if region = "ANZ" then some "apac"
  else none

/-- The `PASSENGER_TYPE_MAPPING` object. -/
def PASSENGER_TYPE_MAPPING (passengerType : String) : Option String :=
  if passengerType = "Single" then some "single"
  else if passengerType = "Couple" then some "couple"
  else if passengerType = "Couple+1" then some "couple-plus-1"
  else if passengerType = "Couple+2" then some "couple-plus-2"
  else none

/-- The `convertToUSD`, instrumented: the second component records whether the
`console.warn` branch for an unknown currency executed.  `if (!rate)` tests
JS falsiness; the table holds no zero rate, so it is exactly the
absent-key test. -/
def convertToUSDW (price : ℚ) (currency : String) : ℚ × Bool :=
  match CURRENCY_RATES currency with
  | none => (price, true)
  | some rate => (((jsRound (price * rate * 100) : ℚ) / 100), false)

/-- The `convertToUSD` of the flight processor (value component). -/
def convertToUSD (price : ℚ) (currency : String) : ℚ :=
  (convertToUSDW price currency).1

/-- One insertion step of the shuffle `[...array].sort(() => 0.5 - Math.random())`.
Each comparison consumes the next value of the explicit stream `rs` of
`Math.random()` draws (`1/2`, i.e. a zero comparator result, once the stream is
exhausted); a non-positive comparator result keeps the inserted element in
front of the scanned one.  The engine's sort on an inconsistent comparator is
only guaranteed to produce a permutation; a comparison sort threaded through
the draw stream models exactly that. -/
def insertRand {α : Type} (q : α) : List α → List ℚ → List α × List ℚ
  | [], rs => ([q], rs)
  | y :: ys, rs =>
      if 1/2 - rs.headD (1/2) ≤ 0 then (q :: y :: ys, rs.tail)
      else
        let p := insertRand q ys rs.tail
        (y :: p.1, p.2)

/-- The shuffle `[...array].sort(() => 0.5 - Math.random())`, with the
consumed stream returned alongside the permuted list. -/
def shuffleRand {α : Type} : List α → List ℚ → List α × List ℚ
  | [], rs => ([], rs)
  | x :: xs, rs =>
      let p := shuffleRand xs rs
      insertRand x p.1 p.2

/-- The `sampleArray`: shuffle a copy of the array and take the first
`Math.min(count, array.length)` elements. -/
def sampleArray {α : Type} (array : List α) (count : ℕ) (rs : List ℚ) :
    List α × List ℚ :=
  let p := shuffleRand array rs
  (p.1.take (min count array.length), p.2)

/-- The bucket key `${originRegion}|${destRegion}|${passengerType}` of a
quote, `none` when any mapping fails (the `if (!o || !d || !p) return;`
guard; all mapped labels are nonempty, so JS falsiness is absence).  The
three components never contain `|`, so the joined string key is modelled
one-to-one as a triple. -/
def flightKey (q : FlightQuote) : Option (String × String × String) :=
  match REGION_MAPPING q.origin_city_region,
        REGION_MAPPING q.destination_city_region,
        PASSENGER_TYPE_MAPPING q.passenger_type with
  | some o, some d, some p => some (o, d, p)
  | _, _, _ => none

/-- The `groupedData[key].push(quote)`, creating the entry if absent. -/
def pushGroup {κ α : Type} [DecidableEq κ] (k : κ) (q : α) :
    List (κ × List α) → List (κ × List α)
  | [] => [(k, [q])]
  | (k', qs) :: rest =>
      if k' = k then (k', qs ++ [q]) :: rest else (k', qs) :: pushGroup k q rest

/-- The body of the grouping `forEach` of `processFlightDataToMatrix`:
a quote whose key fails to map is skipped, the rest are pushed onto their
bucket. -/
def groupStep (acc : List ((String × String × String) × List FlightQuote))
    (q : FlightQuote) : List ((String × String × String) × List FlightQuote) :=
  match flightKey q with
  | none => acc
  | some k => pushGroup k q acc

/-- The grouping pass of `processFlightDataToMatrix`. -/
def groupFlightQuotes (quotes : List FlightQuote) :
    List ((String × String × String) × List FlightQuote) :=
  quotes.foldl groupStep []

/-- Projection of a quote to its `EvidenceItem`. -/
def toEvidenceItem (q : FlightQuote) : EvidenceItem :=
  { departure_city := q.departure_city
    destination_city := q.destination_city
    airline_code := q.airline_code
    price := q.price
    currency := q.currency
    priceUSD := convertToUSD q.price q.currency
    flight_date := q.flight_date
    total_flight_time := q.total_flight_time
    source := q.source
    screenshot_url := q.screenshot_url
    booking_url := q.booking_url
    scraping_datetime := q.scraping_datetime }

/-- The per-bucket body of `processFlightDataToMatrix`: statistics over the
normalized prices and the screenshot-prioritized evidence selection.  Returns
the remaining random stream. -/
def mkFlightBucket (quotes : List FlightQuote) (rs : List ℚ) :
    RegionMatrixData × List ℚ :=
  let pricesUSD := quotes.map fun q => convertToUSD q.price q.currency
  let averagePriceUSD : ℚ :=
    (jsRound (listSum pricesUSD / (pricesUSD.length : ℚ)) : ℚ)
  let minPrice := listMin pricesUSD
  let maxPrice := listMax pricesUSD
  let quotesWithScreenshots := quotes.filter fun q => strTruthy q.screenshot_url
  let quotesWithoutScreenshots :=
    quotes.filter fun q => ! strTruthy q.screenshot_url
  let s1 := sampleArray quotesWithScreenshots 7 rs
  let s2 := sampleArray quotesWithoutScreenshots 3 s1.2
  let selectedQuotes := (s1.1 ++ s2.1).take 10
  ({ averagePriceUSD := averagePriceUSD
     sampleCount := quotes.length
     evidence := selectedQuotes.map toEvidenceItem
     minPrice := minPrice
     maxPrice := maxPrice }, s2.2)

/-- The `ProcessedFlightMatrix`: origin region → destination region →
passenger type → `RegionMatrixData`. -/
abbrev ProcessedFlightMatrix :=
  List (String × List (String × List (String × RegionMatrixData)))

/-- The `matrix[o] ??= {}; matrix[o][d] ??= {}; matrix[o][d][p] = v` — the
guarded nested assignment at the end of each group iteration. -/
def set3 (m : ProcessedFlightMatrix) (o d p : String) (v : RegionMatrixData) :
    ProcessedFlightMatrix :=
  let m1 := (lookupA m o).getD []
  let m2 := (lookupA m1 d).getD []
  setA m o (setA m1 d (setA m2 p v))

/-- The `matrix[o]?.[d]?.[p]` optional-chained read. -/
def lookup3 (m : ProcessedFlightMatrix) (o d p : String) :
    Option RegionMatrixData :=
  match lookupA m o with
  | none => none
  | some m2 =>
      match lookupA m2 d with
      | none => none
      | some m3 => lookupA m3 p

/-- The `Object.entries(groupedData).forEach` loop, threading the random
stream through the buckets in insertion order. -/
def buildFlightMatrix :
    ProcessedFlightMatrix →
      List ((String × String × String) × List FlightQuote) → List ℚ →
        ProcessedFlightMatrix
  | m, [], _ => m
  | m, (k, quotes) :: rest, rs =>
      let p := mkFlightBucket quotes rs
      buildFlightMatrix (set3 m k.1 k.2.1 k.2.2 p.1) rest p.2

/-- The `processFlightDataToMatrix`. -/
def processFlightDataToMatrix (flightData : FlightDataSet) (rs : List ℚ) :
    ProcessedFlightMatrix :=
  buildFlightMatrix [] (groupFlightQuotes flightData.flight_quotes) rs

end Flight

namespace Shipping

/-- The `ShippingQuote` record (shipping-data processor source).  The optional
`screenshot_url` and `website_link` fields are `Option`. -/
structure ShippingQuote where
  city_of_origin : String
  country_of_origin : String
  city_of_destination : String
  country_of_destination : String
  date_of_shipping : String
  total_shipping_time_days : String
  price_of_shipping : ℚ
  currency : String
  container_type : String
  provider : String
  datetime_of_scraping : String
  carrier : String
  screenshot_url : Option String
  website_link : Option String
  validity_from : String
  validity_to : String
  origin_city_region : String
  destination_city_region : String
deriving DecidableEq

/-- The `ProcessedShippingData` record. -/
structure ProcessedShippingData where
  averagePriceUSD : ℚ
  minPrice : ℚ
  maxPrice : ℚ
  sampleCount : ℕ
  evidence : List ShippingQuote
deriving DecidableEq

/-- The `CURRENCY_RATES` object of the shipping processor. -/
def CURRENCY_RATES (currency : String) : Option ℚ :=
  if currency = "USD" then some 1
  else if currency = "EUR" then some (109/100)
  else if currency = "GBP" then some (127/100)
  else if currency = "CAD" then some (74/100)
  else if currency = "AUD" then some (67/100)
  else none

/-- The `CONTAINER_TYPE_MAPPING` object. -/
def CONTAINER_TYPE_MAPPING (containerType : String) : Option String :=
  if containerType = "ST40" then some "40ft"
  else if containerType = "ST20" then some "20ft"
  else if containerType = "40ft" then some "40ft"
  else if containerType = "20ft" then some "20ft"
  else none

/-- The `REGION_MAPPING` object of the shipping processor. -/
def REGION_MAPPING (region : String) : Option String :=
  if region = "NORTH_AMERICA" then some "north-america"
  else if region = "LATAM" then some "latam"
  else if region = "EMEA" then some "emea"
  else if region = "ASIA" then some "apac"
  else if region = "INDIA" then some "india"
  else if region = "ANZ" then some "apac"
  else none

/-- The `convertToUSD` of the shipping processor:
`Math.round(price * (CURRENCY_RATES[currency] || 1.0))`.  The table holds no
falsy rate, so `|| 1.0` is exactly the absent-key default.  Note: whole-unit
rounding and no warning diagnostic, unlike the flight variant. -/
def convertToUSD (price : ℚ) (currency : String) : ℚ :=
  let rate := (CURRENCY_RATES currency).getD 1
  (jsRound (price * rate) : ℚ)

/-- The `convertToUSD` instrumented like the flight variant would be: the source
contains no `console.warn` site, so the warning component is constantly
`false`. -/
def convertToUSDW (price : ℚ) (currency : String) : ℚ × Bool :=
  (convertToUSD price currency, false)

/-- The `String.prototype.replace('_', '-')` on character lists: only the first
occurrence is replaced. -/
def replaceFirstUnderscore : List Char → List Char
  | [] => []
  | c :: cs => if c = '_' then '-' :: cs else c :: replaceFirstUnderscore cs

/-- The `region.toLowerCase().replace('_', '-')`; the labels in play are ASCII,
where `Char.toLower` agrees with JS `toLowerCase`. -/
def fallbackRegion (region : String) : String :=
  ⟨replaceFirstUnderscore (region.data.map Char.toLower)⟩

/-- The `mapRegion`: table hit, else the lowercased/dashed fallback.  Mapped
labels are truthy, so `||` is the absent-key default. -/
def mapRegion (region : String) : String :=
  match REGION_MAPPING region with
  | some r => r
  | none => fallbackRegion region

/-- The `mapContainerType`: table hit, else the raw label. -/
def mapContainerType (containerType : String) : String :=
  (CONTAINER_TYPE_MAPPING containerType).getD containerType

/-- Nested grouped data: origin region → destination region → container
type → quote list. -/
abbrev ShippingGrouped :=
  List (String × List (String × List (String × List ShippingQuote)))

/-- The guarded nested `groupedData[o][d][c].push(quote)`. -/
def pushShipping (m : ShippingGrouped) (o d c : String) (q : ShippingQuote) :
    ShippingGrouped :=
  let m1 := (lookupA m o).getD []
  let m2 := (lookupA m1 d).getD []
  let qs := (lookupA m2 c).getD []
  setA m o (setA m1 d (setA m2 c (qs ++ [q])))

/-- The mapped bucket key of a shipping quote, `none` exactly when the
`if (!originRegion || !destRegion) return;` guard fires — `mapRegion` always
returns a string, which is falsy only when empty.  The container type is
never checked. -/
def shipKey (q : ShippingQuote) : Option (String × String × String) :=
  let o := mapRegion q.origin_city_region
  let d := mapRegion q.destination_city_region
  if o = "" ∨ d = "" then none
  else some (o, d, mapContainerType q.container_type)

/-- The body of the grouping `forEach` of `loadAndProcessShippingData`. -/
def groupStep (acc : ShippingGrouped) (q : ShippingQuote) : ShippingGrouped :=
  match shipKey q with
  | none => acc
  | some k => pushShipping acc k.1 k.2.1 k.2.2 q

/-- The grouping pass of `loadAndProcessShippingData`. -/
def groupShippingQuotes (rawData : List ShippingQuote) : ShippingGrouped :=
  rawData.foldl groupStep []

/-- The per-bucket body of `loadAndProcessShippingData`: statistics and the
slice-based evidence selection (`Math.max(0, 10 - withScreenshots.length)`
computed over the integers). -/
def mkShippingBucket (quotes : List ShippingQuote) : ProcessedShippingData :=
  let pricesUSD :=
    quotes.map fun q => convertToUSD q.price_of_shipping q.currency
  let minPrice := listMin pricesUSD
  let maxPrice := listMax pricesUSD
  let averagePrice : ℚ :=
    (jsRound (listSum pricesUSD / (pricesUSD.length : ℚ)) : ℚ)
  let quotesWithScreenshots := quotes.filter fun q => strTruthy q.screenshot_url
  let quotesWithoutScreenshots :=
    quotes.filter fun q => ! strTruthy q.screenshot_url
  let evidenceQuotes :=
    quotesWithScreenshots.take 7 ++
      quotesWithoutScreenshots.take
        (max 0 (10 - (quotesWithScreenshots.length : ℤ))).toNat
  { averagePriceUSD := averagePrice
    minPrice := minPrice
    maxPrice := maxPrice
    sampleCount := quotes.length
    evidence := evidenceQuotes }

/-- The `ProcessedShippingMatrix`. -/
abbrev ProcessedShippingMatrix :=
  List (String × List (String × List (String × ProcessedShippingData)))

/-- Innermost statistics loop: each container-type group becomes its
bucket. -/
def processContainerLevel (m : List (String × List ShippingQuote)) :
    List (String × ProcessedShippingData) :=
  m.map fun cq => (cq.1, mkShippingBucket cq.2)

/-- Middle statistics loop over destination regions. -/
def processDestLevel
    (m : List (String × List (String × List ShippingQuote))) :
    List (String × List (String × ProcessedShippingData)) :=
  m.map fun dc => (dc.1, processContainerLevel dc.2)

/-- The statistics pass of `loadAndProcessShippingData`: the
`Object.keys(...).forEach` nest walks the grouped structure key by key in
insertion order into an initially empty matrix, so it is exactly a
structure-preserving map of `mkShippingBucket` over the grouped data. -/
def loadAndProcessShippingData (rawData : List ShippingQuote) :
    ProcessedShippingMatrix :=
  (groupShippingQuotes rawData).map fun od => (od.1, processDestLevel od.2)

/-- The `matrix[o]?.[d]?.[c]` on the grouped structure. -/
def lookup3G (m : ShippingGrouped) (o d c : String) :
    Option (List ShippingQuote) :=
  match lookupA m o with
  | none => none
  | some m2 =>
      match lookupA m2 d with
      | none => none
      | some m3 => lookupA m3 c

/-- The `matrix[o]?.[d]?.[c]` on the processed shipping matrix. -/
def lookup3S (m : ProcessedShippingMatrix) (o d c : String) :
    Option ProcessedShippingData :=
  match lookupA m o with
  | none => none
  | some m2 =>
      match lookupA m2 d with
      | none => none
      | some m3 => lookupA m3 c

end Shipping

namespace CostGen

/-- The `Region` record of the mobility data module. -/
structure Region where
  id : String
  name : String
  code : String
  countries : List String
deriving DecidableEq

/-- The `FamilySize` record. -/
structure FamilySize where
  id : String
  label : String
  adults : ℚ
  children : ℚ
  multiplier : ℚ
deriving DecidableEq

/-- The `REGIONS` constant. -/
def REGIONS : List Region :=
  [ { id := "north-america", name := "North America", code := "NA",
      countries := ["United States", "Canada", "Mexico"] }
  , { id := "emea", name := "EMEA", code := "EMEA",
      countries := ["United Kingdom", "Germany", "France", "Netherlands",
        "Spain", "Italy", "Switzerland", "Sweden", "Norway", "Denmark"] }
  , { id := "apac", name := "APAC", code := "APAC",
      countries := ["Australia", "New Zealand", "Singapore", "Japan",
        "South Korea", "Hong Kong"] }
  , { id := "latam", name := "LATAM", code := "LATAM",
      countries := ["Brazil", "Mexico", "Costa Rica", "Argentina", "Chile",
        "Colombia"] }
  , { id := "india", name := "India", code := "IN",
      countries := ["India"] } ]

/-- The `FAMILY_SIZES` constant. -/
def FAMILY_SIZES : List FamilySize :=
  [ { id := "single", label := "Single", adults := 1, children := 0,
      multiplier := 1 }
  , { id := "couple", label := "Couple", adults := 2, children := 0,
      multiplier := 18/10 }
  , { id := "couple-plus-1", label := "Couple +1", adults := 2, children := 1,
      multiplier := 24/10 }
  , { id := "couple-plus-2", label := "Couple +2", adults := 2, children := 2,
      multiplier := 29/10 } ]

/-- The two container-type ids of the `CONTAINER_TYPES` constant. -/
def CONTAINER_TYPE_IDS : List String := ["20ft", "40ft"]

/-- The `ACCOMMODATION_BASE_COSTS` constant (origin → destination → monthly base
cost). -/
def ACCOMMODATION_BASE_COSTS : List (String × List (String × ℚ)) :=
  [ ("north-america",
      [("north-america", 2000), ("emea", 3500), ("apac", 2500),
       ("latam", 2800), ("india", 2800)])
  , ("emea",
      [("north-america", 3500), ("emea", 1800), ("apac", 3000),
       ("latam", 3200), ("india", 1200)])
  , ("apac",
      [("north-america", 2500), ("emea", 3000), ("apac", 1000),
       ("latam", 2400), ("india", 800)])
  , ("latam",
      [("north-america", 2800), ("emea", 3200), ("apac", 2400),
       ("latam", 1500), ("india", 2000)])
  , ("india",
      [("north-america", 2800), ("emea", 1200), ("apac", 800),
       ("latam", 2000), ("india", 600)]) ]

/-- The `ACCOMMODATION_BASE_COSTS[o]?.[d]`. -/
def accommodationBase (o d : String) : Option ℚ :=
  match lookupA ACCOMMODATION_BASE_COSTS o with
  | none => none
  | some row => lookupA row d

/-- One section of the `CostMatrix` response: origin id → destination id →
category id → number. -/
abbrev CostSection := List (String × List (String × List (String × ℚ)))

/-- The `CostMatrix` response object. -/
structure CostMatrix where
  flights : CostSection
  accommodation : CostSection
  shipping : CostSection
deriving DecidableEq

/-- The `x || 0` on an optionally-chained number: `undefined` and `0` are falsy. -/
def jsOrZero (x : Option ℚ) : ℚ :=
  match x with
  | none => 0
  | some v => if v = 0 then 0 else v

/-- Cell lookup `section[o]?.[d]?.[k]` on a cost section. -/
def lookupCell (s : CostSection) (o d k : String) : Option ℚ :=
  match lookupA s o with
  | none => none
  | some m2 =>
      match lookupA m2 d with
      | none => none
      | some m3 => lookupA m3 k

/-- One flight cell: `realData.averagePriceUSD` when a real bucket exists,
the zero sentinel otherwise (covering both the real-data loop and the
no-real-data loop, whose bodies differ only in this value). -/
def flightCellValue (processedFlightMatrix : Option Flight.ProcessedFlightMatrix)
    (o d f : String) : ℚ :=
  match processedFlightMatrix with
  | some pm =>
      match Flight.lookup3 pm o d f with
      | some realData => realData.averagePriceUSD
      | none => 0
  | none => 0

/-- One accommodation cell: `Math.round(base * familySize.multiplier)` when
the static table has the pair, the zero sentinel otherwise. -/
def accommodationCellValue (o d : String) (multiplier : ℚ) : ℚ :=
  match accommodationBase o d with
  | some accommodationData => (jsRound (accommodationData * multiplier) : ℚ)
  | none => 0

/-- One shipping cell: `data?.averagePriceUSD || 0` when a processed matrix
is cached, the zero sentinel otherwise (both loop bodies produce this). -/
def shippingCellValue
    (processedShippingMatrix : Option Shipping.ProcessedShippingMatrix)
    (o d c : String) : ℚ :=
  match processedShippingMatrix with
  | some sm => jsOrZero ((Shipping.lookup3S sm o d c).map (·.averagePriceUSD))
  | none => 0

/-- The `generateCostMatrix`, as a function of the module-level cached state
(`processedFlightMatrix`, `processedShippingMatrix`; `null` is `none`).
Each `REGIONS.forEach` / `FAMILY_SIZES.forEach` nest assigns through
`if (!obj[k]) obj[k] = {}` guards over the pairwise-distinct enumeration
ids into an initially empty object, which builds exactly the nested map in
iteration order; the real-data and fallback loops of each section differ
only in the cell value, captured by the cell-value functions above. -/
def generateCostMatrix (processedFlightMatrix : Option Flight.ProcessedFlightMatrix)
    (processedShippingMatrix : Option Shipping.ProcessedShippingMatrix) :
    CostMatrix :=
  { flights :=
      REGIONS.map fun originRegion =>
        (originRegion.id, REGIONS.map fun destRegion =>
          (destRegion.id, FAMILY_SIZES.map fun familySize =>
            (familySize.id, flightCellValue processedFlightMatrix
              originRegion.id destRegion.id familySize.id)))
    accommodation :=
      REGIONS.map fun originRegion =>
        (originRegion.id, REGIONS.map fun destRegion =>
          (destRegion.id, FAMILY_SIZES.map fun familySize =>
            (familySize.id, accommodationCellValue originRegion.id
              destRegion.id familySize.multiplier)))
    shipping :=
      REGIONS.map fun originRegion =>
        (originRegion.id, REGIONS.map fun destRegion =>
          (destRegion.id,
            [ ("20ft", shippingCellValue processedShippingMatrix
                originRegion.id destRegion.id "20ft")
            , ("40ft", shippingCellValue processedShippingMatrix
                originRegion.id destRegion.id "40ft") ])) }

end CostGen

/-! Concrete data fixtures used by the closed instance theorems below. -/

/-- A flight quote with the given price, currency, raw region labels,
passenger-type label and screenshot reference. -/
def sampleFlightQuote (price : ℚ) (currency oreg dreg ptype : String)
    (scr : Option String) : Flight.FlightQuote :=
  { departure_airport := "JFK"
    destination_airport := "LAX"
    departure_city := "New York"
    destination_city := "Los Angeles"
    origin_city_region := oreg
    destination_city_region := dreg
    flight_date := "2025-03-01"
    departure_time := "10:00"
    arrival_time := "13:00"
    total_flight_time := "6h"
    airline_code := "AA"
    cabin_bags := 1
    checked_bags := 1
    num_stops := 0
    price := price
    currency := currency
    num_adults := 1
    num_children := 0
    num_infants := 0
    passenger_type := ptype
    scraping_datetime := "2025-03-02T00:00:00Z"
    source := "kiwi"
    screenshot_url := scr
    booking_url := "https://example.com/book" }

/-- A shipping quote with the given price, raw region labels, container
label and screenshot reference (currency USD). -/
def sampleShippingQuote (price : ℚ) (oreg dreg ct : String)
    (scr : Option String) : Shipping.ShippingQuote :=
  { city_of_origin := "New York"
    country_of_origin := "USA"
    city_of_destination := "London"
    country_of_destination := "UK"
    date_of_shipping := "2025-03-01"
    total_shipping_time_days := "12"
    price_of_shipping := price
    currency := "USD"
    container_type := ct
    provider := "Freightos"
    datetime_of_scraping := "2025-03-02T00:00:00Z"
    carrier := "MSC"
    screenshot_url := scr
    website_link := none
    validity_from := "2025-03-01"
    validity_to := "2025-04-01"
    origin_city_region := oreg
    destination_city_region := dreg }

/-- Single flight quote priced 10.6 USD: its bucket's rounded mean (11)
exceeds its `maxPrice` (10.6). -/
def flightQuoteHalf : Flight.FlightQuote :=
  sampleFlightQuote (106/10) "USD" "NORTH_AMERICA" "NORTH_AMERICA" "Single" none

/-- Data set holding only `flightQuoteHalf`. -/
def flightDataHalf : Flight.FlightDataSet :=
  { aggregation_timestamp := "2025-03-02", total_quotes := 1,
    flight_quotes := [flightQuoteHalf] }

/-- The bucket the aggregator materializes for `flightDataHalf`. -/
def flightBucketHalf : Flight.RegionMatrixData :=
  (Flight.mkFlightBucket [flightQuoteHalf] []).1

/-- A flight quote whose origin region label is in no mapping table. -/
def flightQuoteMars : Flight.FlightQuote :=
  sampleFlightQuote 500 "USD" "MARS" "EMEA" "Single" none

/-- A shipping quote whose raw region label "AFRICA" is not in the static
mapping table; `mapRegion` falls back to "africa". -/
def shipQuoteAfrica : Shipping.ShippingQuote :=
  sampleShippingQuote 500 "AFRICA" "EMEA" "ST20" (some "https://s/a.png")

/-- The bucket materialized for `shipQuoteAfrica`. -/
def shipBucketAfrica : Shipping.ProcessedShippingData :=
  Shipping.mkShippingBucket [shipQuoteAfrica]

/-- A shipping quote whose origin region label is empty, the only way the
shipping grouping guard drops a quote. -/
def shipQuoteNoRegion : Shipping.ShippingQuote :=
  sampleShippingQuote 500 "" "EMEA" "ST20" none

/-- Twelve shipping quotes in one bucket, nine of them with screenshots. -/
def shipQuotes12 : List Shipping.ShippingQuote :=
  (List.range 9).map (fun i =>
    sampleShippingQuote (100 + i) "NORTH_AMERICA" "NORTH_AMERICA" "ST20"
      (some "https://s/b.png")) ++
  (List.range 3).map (fun i =>
    sampleShippingQuote (200 + i) "NORTH_AMERICA" "NORTH_AMERICA" "ST20" none)

/-- The bucket materialized for `shipQuotes12`. -/
def shipBucket12 : Shipping.ProcessedShippingData :=
  Shipping.mkShippingBucket shipQuotes12

/-- Two distinguishable quotes for exercising the random sampler. -/
def flightQuoteRandA : Flight.FlightQuote :=
  sampleFlightQuote 111 "USD" "EMEA" "EMEA" "Single" none

def flightQuoteRandB : Flight.FlightQuote :=
  sampleFlightQuote 222 "USD" "EMEA" "EMEA" "Single" none

/-- A shipping quote with price zero. -/
def shipQuoteFree : Shipping.ShippingQuote :=
  sampleShippingQuote 0 "NORTH_AMERICA" "NORTH_AMERICA" "ST20" none

/-- The zero-average bucket produced by aggregating `shipQuoteFree`. -/
def shipBucketZero : Shipping.ProcessedShippingData :=
  { averagePriceUSD := 0, minPrice := 0, maxPrice := 0, sampleCount := 1,
    evidence := [shipQuoteFree] }

/-- A processed shipping matrix whose only bucket has a genuine zero
average price. -/
def shipMatrixZero : Shipping.ProcessedShippingMatrix :=
  [("north-america", [("north-america", [("20ft", shipBucketZero)])])]

/-- Three-quote example data set (spec scenario 1): 200 USD, 300 USD,
400 EUR into one bucket. -/
def flightDataThree : Flight.FlightDataSet :=
  { aggregation_timestamp := "2025-03-02", total_quotes := 3,
    flight_quotes :=
      [ sampleFlightQuote 200 "USD" "NORTH_AMERICA" "NORTH_AMERICA" "Single"
          (some "https://s/1.png")
      , sampleFlightQuote 300 "USD" "NORTH_AMERICA" "NORTH_AMERICA" "Single" none
      , sampleFlightQuote 400 "EUR" "NORTH_AMERICA" "NORTH_AMERICA" "Single" none ] }

/-- The bucket materialized for `flightDataThree`. -/
def flightBucketThree : Flight.RegionMatrixData :=
  (Flight.mkFlightBucket flightDataThree.flight_quotes []).1

/-- One-quote shipping data set with a mapped region. -/
def shipDataOne : List Shipping.ShippingQuote :=
  [sampleShippingQuote 400 "NORTH_AMERICA" "EMEA" "ST40" (some "https://s/c.png")]

/-- The bucket materialized for `shipDataOne`. -/
def shipBucketOne : Shipping.ProcessedShippingData :=
  Shipping.mkShippingBucket shipDataOne

/-! ### Association-list lemmas -/

theorem lookupA_setA_self {κ α : Type} [DecidableEq κ] (m : List (κ × α))
    (k : κ) (v : α) : lookupA (setA m k v) k = some v := by
  induction m with
  | nil => simp [setA, lookupA]
  | cons kv rest ih =>
      obtain ⟨k', v'⟩ := kv
      by_cases h : k' = k
      · simp [setA, lookupA, h]
      · simp [setA, lookupA, h, ih]

theorem lookupA_setA_ne {κ α : Type} [DecidableEq κ] (m : List (κ × α))
    {k k' : κ} (v : α) (h : k' ≠ k) :
    lookupA (setA m k v) k' = lookupA m k' := by
  have hne : k ≠ k' := fun hh => h hh.symm
  induction m with
  | nil => simp [setA, lookupA, hne]
  | cons kv rest ih =>
      obtain ⟨k₀, v₀⟩ := kv
      by_cases h0 : k₀ = k
      · subst h0
        simp [setA, lookupA, hne]
      · simp [setA, lookupA, h0, ih]

theorem lookupA_eq_none_iff {κ α : Type} [DecidableEq κ] (m : List (κ × α))
    (k : κ) : lookupA m k = none ↔ k ∉ m.map Prod.fst := by
  induction m with
  | nil => simp [lookupA]
  | cons kv rest ih =>
      obtain ⟨k', v'⟩ := kv
      by_cases h : k' = k
      · simp [lookupA, h]
      · have hne : ¬ k = k' := fun hh => h hh.symm
        simp only [lookupA, if_neg h, List.map_cons, List.mem_cons]
        rw [ih]
        tauto

theorem lookupA_some_mem {κ α : Type} [DecidableEq κ] {m : List (κ × α)}
    {k : κ} {v : α} (h : lookupA m k = some v) : (k, v) ∈ m := by
  induction m with
  | nil => simp [lookupA] at h
  | cons kv rest ih =>
      obtain ⟨k', v'⟩ := kv
      by_cases hk : k' = k
      · subst hk
        have h' : v' = v := by simpa [lookupA] using h
        subst h'
        exact List.mem_cons_self _ _
      · have h' : lookupA rest k = some v := by simpa [lookupA, hk] using h
        exact List.mem_cons_of_mem _ (ih h')

theorem lookupA_map_val {κ α β : Type} [DecidableEq κ] (m : List (κ × α))
    (F : α → β) (k : κ) :
    lookupA (m.map fun kv => (kv.1, F kv.2)) k = (lookupA m k).map F := by
  induction m with
  | nil => simp [lookupA]
  | cons kv rest ih =>
      obtain ⟨k', v'⟩ := kv
      by_cases h : k' = k
      · simp [lookupA, h]
      · simp [lookupA, h, ih]

theorem lookupA_map_key {β κ α : Type} [DecidableEq κ] (l : List β)
    (key : β → κ) (g : β → α) (b : β) (hb : b ∈ l)
    (hnd : (l.map key).Nodup) :
    lookupA (l.map fun x => (key x, g x)) (key b) = some (g b) := by
  induction l with
  | nil => cases hb
  | cons x rest ih =>
      simp only [List.map_cons, List.nodup_cons] at hnd
      rcases List.mem_cons.mp hb with hbx | hbr
      · subst hbx
        simp [lookupA]
      · by_cases h : key x = key b
        · exact absurd (h ▸ List.mem_map_of_mem key hbr) hnd.1
        · simp only [List.map_cons, lookupA, if_neg h]
          exact ih hbr hnd.2

/-! ### Grouping lemmas -/

theorem lookupA_pushGroup_self {κ α : Type} [DecidableEq κ]
    (m : List (κ × List α)) (k : κ) (q : α) :
    lookupA (Flight.pushGroup k q m) k = some ((lookupA m k).getD [] ++ [q]) := by
  induction m with
  | nil => simp [Flight.pushGroup, lookupA]
  | cons kv rest ih =>
      obtain ⟨k', qs⟩ := kv
      by_cases h : k' = k
      · subst h
        simp [Flight.pushGroup, lookupA]
      · simp [Flight.pushGroup, lookupA, h, ih]

theorem lookupA_pushGroup_ne {κ α : Type} [DecidableEq κ]
    (m : List (κ × List α)) {k k' : κ} (q : α) (h : k' ≠ k) :
    lookupA (Flight.pushGroup k q m) k' = lookupA m k' := by
  have hne : k ≠ k' := fun hh => h hh.symm
  induction m with
  | nil => simp [Flight.pushGroup, lookupA, hne]
  | cons kv rest ih =>
      obtain ⟨k₀, qs⟩ := kv
      by_cases h0 : k₀ = k
      · subst h0
        simp [Flight.pushGroup, lookupA, hne]
      · simp [Flight.pushGroup, lookupA, h0, ih]

/-- Lookup after the flight grouping fold: the bucket at `k` accumulates, in
input order, exactly the quotes whose key maps to `k`. -/
theorem lookup_groupFoldFlight :
    ∀ (l : List Flight.FlightQuote)
      (s : List ((String × String × String) × List Flight.FlightQuote))
      (k : String × String × String),
      lookupA (l.foldl Flight.groupStep s) k =
      match lookupA s k,
        l.filter (fun q => decide (Flight.flightKey q = some k)) with
      | some g, f => some (g ++ f)
      | none, [] => none
      | none, f => some f := by
  intro l
  induction l with
  | nil =>
      intro s k
      simp only [List.foldl_nil, List.filter_nil]
      cases lookupA s k <;> simp
  | cons q rest ih =>
      intro s k
      rw [List.foldl_cons]
      cases hq : Flight.flightKey q with
      | none =>
          rw [show Flight.groupStep s q = s by simp [Flight.groupStep, hq]]
          rw [ih]
          have : decide (Flight.flightKey q = some k) = false := by simp [hq]
          rw [List.filter_cons, this]
          simp
      | some kk =>
          rw [show Flight.groupStep s q = Flight.pushGroup kk q s by
            simp [Flight.groupStep, hq]]
          by_cases hkk : kk = k
          · subst hkk
            rw [ih, lookupA_pushGroup_self]
            have : decide (Flight.flightKey q = some kk) = true := by simp [hq]
            rw [List.filter_cons, this]
            cases hl : lookupA s kk <;> simp
          · rw [ih, lookupA_pushGroup_ne _ _ (fun hh => hkk hh.symm)]
            have : decide (Flight.flightKey q = some k) = false := by
              simp [hq, hkk]
            rw [List.filter_cons, this]
            simp

theorem pushGroup_keys {κ α : Type} [DecidableEq κ]
    (m : List (κ × List α)) (k : κ) (q : α) :
    (Flight.pushGroup k q m).map Prod.fst =
      if k ∈ m.map Prod.fst then m.map Prod.fst else m.map Prod.fst ++ [k] := by
  induction m with
  | nil => simp [Flight.pushGroup]
  | cons kv rest ih =>
      obtain ⟨k', qs⟩ := kv
      by_cases h : k' = k
      · subst h
        simp [Flight.pushGroup]
      · have hne : ¬ k = k' := fun hh => h hh.symm
        simp only [Flight.pushGroup, if_neg h, List.map_cons, ih,
          List.mem_cons]
        by_cases hm : k ∈ rest.map Prod.fst
        · simp [hm, hne]
        · simp [hm, hne]

theorem pushGroup_keys_nodup {κ α : Type} [DecidableEq κ]
    {m : List (κ × List α)} (k : κ) (q : α)
    (h : (m.map Prod.fst).Nodup) :
    ((Flight.pushGroup k q m).map Prod.fst).Nodup := by
  rw [pushGroup_keys]
  by_cases hm : k ∈ m.map Prod.fst
  · simpa [hm] using h
  · simpa [hm, List.nodup_append] using h

theorem groupFlightQuotes_keys_nodup (quotes : List Flight.FlightQuote) :
    ((Flight.groupFlightQuotes quotes).map Prod.fst).Nodup := by
  have main : ∀ (l : List Flight.FlightQuote)
      (acc : List ((String × String × String) × List Flight.FlightQuote)),
      (acc.map Prod.fst).Nodup →
      ((l.foldl Flight.groupStep acc).map Prod.fst).Nodup := by
    intro l
    induction l with
    | nil => intro acc h; simpa using h
    | cons q rest ih =>
        intro acc h
        rw [List.foldl_cons]
        cases hq : Flight.flightKey q with
        | none =>
            rw [show Flight.groupStep acc q = acc by simp [Flight.groupStep, hq]]
            exact ih acc h
        | some k =>
            rw [show Flight.groupStep acc q = Flight.pushGroup k q acc by
              simp [Flight.groupStep, hq]]
            exact ih _ (pushGroup_keys_nodup k q h)
  simpa [Flight.groupFlightQuotes] using main quotes [] (by simp)

/-- The flight grouping bucket at key `k` is exactly the in-order filter of
the quotes keyed `k`, absent when that filter is empty. -/
theorem lookup_groupFlightQuotes_eq (quotes : List Flight.FlightQuote)
    (k : String × String × String) :
    lookupA (Flight.groupFlightQuotes quotes) k =
      if (quotes.filter fun q => decide (Flight.flightKey q = some k)) = []
      then none
      else some (quotes.filter fun q => decide (Flight.flightKey q = some k)) := by
  rw [Flight.groupFlightQuotes, lookup_groupFoldFlight]
  cases hf : quotes.filter fun q => decide (Flight.flightKey q = some k) with
  | nil => simp [lookupA]
  | cons a f => simp [lookupA]

theorem flight_group_some {quotes : List Flight.FlightQuote}
    {k : String × String × String} {g : List Flight.FlightQuote}
    (h : lookupA (Flight.groupFlightQuotes quotes) k = some g) :
    g = quotes.filter (fun q => decide (Flight.flightKey q = some k)) ∧
      g ≠ [] := by
  rw [lookup_groupFlightQuotes_eq] at h
  by_cases hf : (quotes.filter fun q => decide (Flight.flightKey q = some k)) = []
  · rw [if_pos hf] at h
    cases h
  · rw [if_neg hf] at h
    refine ⟨(Option.some.inj h).symm, ?_⟩
    rw [(Option.some.inj h).symm]
    exact hf

theorem flight_group_of_filter_ne {quotes : List Flight.FlightQuote}
    {k : String × String × String}
    (hf : (quotes.filter fun q => decide (Flight.flightKey q = some k)) ≠ []) :
    lookupA (Flight.groupFlightQuotes quotes) k =
      some (quotes.filter fun q => decide (Flight.flightKey q = some k)) := by
  rw [lookup_groupFlightQuotes_eq, if_neg hf]

/-! ### Flight matrix build lemmas -/

theorem lookup3_set3_self (m : Flight.ProcessedFlightMatrix) (o d p : String)
    (v : Flight.RegionMatrixData) :
    Flight.lookup3 (Flight.set3 m o d p v) o d p = some v := by
  simp [Flight.set3, Flight.lookup3, lookupA_setA_self]

theorem lookup3_set3_ne (m : Flight.ProcessedFlightMatrix) (o d p : String)
    (v : Flight.RegionMatrixData) (o' d' p' : String)
    (h : (o', d', p') ≠ (o, d, p)) :
    Flight.lookup3 (Flight.set3 m o d p v) o' d' p' =
      Flight.lookup3 m o' d' p' := by
  by_cases ho : o' = o
  · subst ho
    by_cases hd : d' = d
    · subst hd
      have hp : p' ≠ p := by
        intro hh
        exact h (by rw [hh])
      have hp' : ¬ p = p' := fun hh => hp hh.symm
      cases h1 : lookupA m o' with
      | none =>
          simp [Flight.set3, Flight.lookup3, h1, lookupA_setA_self,
            lookupA_setA_ne _ _ hp, lookupA, hp']
      | some mm =>
          cases h2 : lookupA mm d' with
          | none =>
              simp [Flight.set3, Flight.lookup3, h1, h2, lookupA_setA_self,
                lookupA_setA_ne _ _ hp, lookupA, hp']
          | some m3 =>
              simp [Flight.set3, Flight.lookup3, h1, h2, lookupA_setA_self,
                lookupA_setA_ne _ _ hp, hp']
    · have hd' : ¬ d = d' := fun hh => hd hh.symm
      cases h1 : lookupA m o' with
      | none =>
          simp [Flight.set3, Flight.lookup3, h1, lookupA_setA_self,
            lookupA_setA_ne _ _ hd, lookupA, hd']
      | some mm =>
          simp [Flight.set3, Flight.lookup3, h1, lookupA_setA_self,
            lookupA_setA_ne _ _ hd, hd']
  · simp [Flight.set3, Flight.lookup3, lookupA_setA_ne _ _ ho]

theorem build_lookup_not_mem
    (groups : List ((String × String × String) × List Flight.FlightQuote)) :
    ∀ (m : Flight.ProcessedFlightMatrix) (rs : List ℚ)
      (k : String × String × String), k ∉ groups.map Prod.fst →
      Flight.lookup3 (Flight.buildFlightMatrix m groups rs) k.1 k.2.1 k.2.2 =
        Flight.lookup3 m k.1 k.2.1 k.2.2 := by
  induction groups with
  | nil => intro m rs k _; rfl
  | cons kg rest ih =>
      intro m rs k h
      obtain ⟨k0, g0⟩ := kg
      simp only [List.map_cons, List.mem_cons] at h
      push_neg at h
      rw [Flight.buildFlightMatrix]
      rw [ih _ _ _ h.2]
      exact lookup3_set3_ne _ _ _ _ _ _ _ _ h.1

theorem build_lookup_mem
    (groups : List ((String × String × String) × List Flight.FlightQuote)) :
    ∀ (m : Flight.ProcessedFlightMatrix) (rs : List ℚ)
      (k : String × String × String) (g : List Flight.FlightQuote),
      (groups.map Prod.fst).Nodup → (k, g) ∈ groups →
      ∃ rs', Flight.lookup3 (Flight.buildFlightMatrix m groups rs)
          k.1 k.2.1 k.2.2 = some (Flight.mkFlightBucket g rs').1 := by
  induction groups with
  | nil => intro m rs k g _ h; cases h
  | cons kg rest ih =>
      intro m rs k g hnd hmem
      obtain ⟨k0, g0⟩ := kg
      simp only [List.map_cons, List.nodup_cons] at hnd
      rcases List.mem_cons.mp hmem with heq | hmem'
      · have hk : k = k0 := congrArg Prod.fst heq
        have hg : g = g0 := congrArg Prod.snd heq
        subst hk
        subst hg
        refine ⟨rs, ?_⟩
        rw [Flight.buildFlightMatrix]
        rw [build_lookup_not_mem rest _ _ k hnd.1]
        exact lookup3_set3_self _ _ _ _ _
      · rw [Flight.buildFlightMatrix]
        exact ih _ _ k g hnd.2 hmem'

/-- Master inversion: a materialized flight bucket is the `mkFlightBucket`
of the in-order filter of the data set's quotes at that key, for some tail
of the random stream; the filter is nonempty. -/
theorem flight_lookup_some {ds : Flight.FlightDataSet} {rs : List ℚ}
    {o d p : String} {b : Flight.RegionMatrixData}
    (h : Flight.lookup3 (Flight.processFlightDataToMatrix ds rs) o d p = some b) :
    ∃ rs',
      (ds.flight_quotes.filter fun q =>
        decide (Flight.flightKey q = some (o, d, p))) ≠ [] ∧
      b = (Flight.mkFlightBucket
        (ds.flight_quotes.filter fun q =>
          decide (Flight.flightKey q = some (o, d, p))) rs').1 := by
  rw [Flight.processFlightDataToMatrix] at h
  cases hg : lookupA (Flight.groupFlightQuotes ds.flight_quotes) (o, d, p) with
  | none =>
      have hk : (o, d, p) ∉
          (Flight.groupFlightQuotes ds.flight_quotes).map Prod.fst :=
        (lookupA_eq_none_iff _ _).mp hg
      have hnone := build_lookup_not_mem _ [] rs (o, d, p) hk
      rw [hnone] at h
      cases h
  | some g =>
      obtain ⟨hgf, hgne⟩ := flight_group_some hg
      obtain ⟨rs', hrs⟩ := build_lookup_mem _ [] rs (o, d, p) g
        (groupFlightQuotes_keys_nodup _) (lookupA_some_mem hg)
      rw [h] at hrs
      refine ⟨rs', ?_, ?_⟩
      · rw [← hgf]; exact hgne
      · rw [← hgf]; exact Option.some.inj hrs

/-- Converse: a nonempty key filter materializes a bucket. -/
theorem flight_lookup_of_filter_ne {ds : Flight.FlightDataSet} {rs : List ℚ}
    {o d p : String}
    (hf : (ds.flight_quotes.filter fun q =>
      decide (Flight.flightKey q = some (o, d, p))) ≠ []) :
    ∃ rs', Flight.lookup3 (Flight.processFlightDataToMatrix ds rs) o d p =
      some ((Flight.mkFlightBucket
        (ds.flight_quotes.filter fun q =>
          decide (Flight.flightKey q = some (o, d, p))) rs').1) := by
  rw [Flight.processFlightDataToMatrix]
  exact build_lookup_mem _ [] rs (o, d, p) _
    (groupFlightQuotes_keys_nodup _)
    (lookupA_some_mem (flight_group_of_filter_ne hf))

/-! ### Shipping grouping and processing lemmas -/

theorem lookup3G_pushShipping_self (m : Shipping.ShippingGrouped)
    (o d c : String) (q : Shipping.ShippingQuote) :
    Shipping.lookup3G (Shipping.pushShipping m o d c q) o d c =
      some ((Shipping.lookup3G m o d c).getD [] ++ [q]) := by
  cases h1 : lookupA m o with
  | none =>
      simp [Shipping.pushShipping, Shipping.lookup3G, h1, lookupA_setA_self,
        lookupA]
  | some m2 =>
      cases h2 : lookupA m2 d with
      | none =>
          simp [Shipping.pushShipping, Shipping.lookup3G, h1, h2,
            lookupA_setA_self, lookupA]
      | some m3 =>
          cases h3 : lookupA m3 c with
          | none =>
              simp [Shipping.pushShipping, Shipping.lookup3G, h1, h2, h3,
                lookupA_setA_self, lookupA]
          | some qs =>
              simp [Shipping.pushShipping, Shipping.lookup3G, h1, h2, h3,
                lookupA_setA_self]

theorem lookup3G_pushShipping_ne (m : Shipping.ShippingGrouped)
    (o d c : String) (q : Shipping.ShippingQuote) (o' d' c' : String)
    (h : (o', d', c') ≠ (o, d, c)) :
    Shipping.lookup3G (Shipping.pushShipping m o d c q) o' d' c' =
      Shipping.lookup3G m o' d' c' := by
  by_cases ho : o' = o
  · subst ho
    by_cases hd : d' = d
    · subst hd
      have hc : c' ≠ c := by
        intro hh
        exact h (by rw [hh])
      have hc' : ¬ c = c' := fun hh => hc hh.symm
      cases h1 : lookupA m o' with
      | none =>
          simp [Shipping.pushShipping, Shipping.lookup3G, h1, lookupA_setA_self,
            lookupA_setA_ne _ _ hc, lookupA, hc']
      | some m2 =>
          cases h2 : lookupA m2 d' with
          | none =>
              simp [Shipping.pushShipping, Shipping.lookup3G, h1, h2,
                lookupA_setA_self, lookupA_setA_ne _ _ hc, lookupA, hc']
          | some m3 =>
              simp [Shipping.pushShipping, Shipping.lookup3G, h1, h2,
                lookupA_setA_self, lookupA_setA_ne _ _ hc, hc']
    · have hd' : ¬ d = d' := fun hh => hd hh.symm
      cases h1 : lookupA m o' with
      | none =>
          simp [Shipping.pushShipping, Shipping.lookup3G, h1, lookupA_setA_self,
            lookupA_setA_ne _ _ hd, lookupA, hd']
      | some m2 =>
          simp [Shipping.pushShipping, Shipping.lookup3G, h1, lookupA_setA_self,
            lookupA_setA_ne _ _ hd, hd']
  · simp [Shipping.pushShipping, Shipping.lookup3G, lookupA_setA_ne _ _ ho]

theorem lookup_groupFoldShip :
    ∀ (l : List Shipping.ShippingQuote) (s : Shipping.ShippingGrouped)
      (k : String × String × String),
      Shipping.lookup3G (l.foldl Shipping.groupStep s) k.1 k.2.1 k.2.2 =
      match Shipping.lookup3G s k.1 k.2.1 k.2.2,
        l.filter (fun q => decide (Shipping.shipKey q = some k)) with
      | some g, f => some (g ++ f)
      | none, [] => none
      | none, f => some f := by
  intro l
  induction l with
  | nil =>
      intro s k
      simp only [List.foldl_nil, List.filter_nil]
      cases Shipping.lookup3G s k.1 k.2.1 k.2.2 <;> simp
  | cons q rest ih =>
      intro s k
      rw [List.foldl_cons]
      cases hq : Shipping.shipKey q with
      | none =>
          rw [show Shipping.groupStep s q = s by simp [Shipping.groupStep, hq]]
          rw [ih]
          have : decide (Shipping.shipKey q = some k) = false := by simp [hq]
          rw [List.filter_cons, this]
          simp
      | some kk =>
          rw [show Shipping.groupStep s q =
              Shipping.pushShipping s kk.1 kk.2.1 kk.2.2 q by
            simp [Shipping.groupStep, hq]]
          by_cases hkk : kk = k
          · subst hkk
            rw [ih, lookup3G_pushShipping_self]
            have : decide (Shipping.shipKey q = some kk) = true := by simp [hq]
            rw [List.filter_cons, this]
            cases hl : Shipping.lookup3G s kk.1 kk.2.1 kk.2.2 <;> simp
          · have hne : (k.1, k.2.1, k.2.2) ≠ (kk.1, kk.2.1, kk.2.2) :=
              fun hh => hkk (hh.symm)
            rw [ih, lookup3G_pushShipping_ne _ _ _ _ _ _ _ _ hne]
            have : decide (Shipping.shipKey q = some k) = false := by
              simp [hq, hkk]
            rw [List.filter_cons, this]
            simp

/-- The shipping grouping bucket at key `(o, d, c)` is exactly the in-order
filter of the quotes keyed there, absent when that filter is empty. -/
theorem lookup_groupShippingQuotes_eq (l : List Shipping.ShippingQuote)
    (o d c : String) :
    Shipping.lookup3G (Shipping.groupShippingQuotes l) o d c =
      if (l.filter fun q => decide (Shipping.shipKey q = some (o, d, c))) = []
      then none
      else some (l.filter fun q =>
        decide (Shipping.shipKey q = some (o, d, c))) := by
  have h := lookup_groupFoldShip l [] (o, d, c)
  rw [Shipping.groupShippingQuotes]
  rw [h]
  cases hf : l.filter fun q => decide (Shipping.shipKey q = some (o, d, c)) with
  | nil => simp [Shipping.lookup3G, lookupA]
  | cons a f => simp [Shipping.lookup3G, lookupA]

theorem ship_group_some {l : List Shipping.ShippingQuote} {o d c : String}
    {g : List Shipping.ShippingQuote}
    (h : Shipping.lookup3G (Shipping.groupShippingQuotes l) o d c = some g) :
    g = l.filter (fun q => decide (Shipping.shipKey q = some (o, d, c))) ∧
      g ≠ [] := by
  rw [lookup_groupShippingQuotes_eq] at h
  by_cases hf :
      (l.filter fun q => decide (Shipping.shipKey q = some (o, d, c))) = []
  · rw [if_pos hf] at h
    cases h
  · rw [if_neg hf] at h
    refine ⟨(Option.some.inj h).symm, ?_⟩
    rw [(Option.some.inj h).symm]
    exact hf

theorem ship_group_of_filter_ne {l : List Shipping.ShippingQuote}
    {o d c : String}
    (hf : (l.filter fun q =>
      decide (Shipping.shipKey q = some (o, d, c))) ≠ []) :
    Shipping.lookup3G (Shipping.groupShippingQuotes l) o d c =
      some (l.filter fun q => decide (Shipping.shipKey q = some (o, d, c))) := by
  rw [lookup_groupShippingQuotes_eq, if_neg hf]

/-- The processed shipping matrix is the bucket-wise image of the grouped
data. -/
theorem lookup3S_load (l : List Shipping.ShippingQuote) (o d c : String) :
    Shipping.lookup3S (Shipping.loadAndProcessShippingData l) o d c =
      (Shipping.lookup3G (Shipping.groupShippingQuotes l) o d c).map
        Shipping.mkShippingBucket := by
  rw [Shipping.loadAndProcessShippingData]
  cases h1 : lookupA (Shipping.groupShippingQuotes l) o with
  | none =>
      simp [Shipping.lookup3S, Shipping.lookup3G, lookupA_map_val, h1]
  | some m2 =>
      cases h2 : lookupA m2 d with
      | none =>
          simp [Shipping.lookup3S, Shipping.lookup3G, Shipping.processDestLevel,
            lookupA_map_val, h1, h2]
      | some m3 =>
          simp [Shipping.lookup3S, Shipping.lookup3G, Shipping.processDestLevel,
            Shipping.processContainerLevel, lookupA_map_val, h1, h2]

/-- Master inversion: a materialized shipping bucket is the
`mkShippingBucket` of the in-order filter of the raw quotes at that key;
the filter is nonempty. -/
theorem ship_lookup_some {l : List Shipping.ShippingQuote} {o d c : String}
    {b : Shipping.ProcessedShippingData}
    (h : Shipping.lookup3S (Shipping.loadAndProcessShippingData l) o d c =
      some b) :
    (l.filter fun q => decide (Shipping.shipKey q = some (o, d, c))) ≠ [] ∧
      b = Shipping.mkShippingBucket
        (l.filter fun q => decide (Shipping.shipKey q = some (o, d, c))) := by
  rw [lookup3S_load] at h
  cases hg : Shipping.lookup3G (Shipping.groupShippingQuotes l) o d c with
  | none => rw [hg] at h; cases h
  | some g =>
      rw [hg] at h
      obtain ⟨hgf, hgne⟩ := ship_group_some hg
      constructor
      · rw [← hgf]; exact hgne
      · rw [← hgf]
        exact (Option.some.inj h).symm

/-- Converse: a nonempty key filter materializes a shipping bucket. -/
theorem ship_lookup_of_filter_ne {l : List Shipping.ShippingQuote}
    {o d c : String}
    (hf : (l.filter fun q =>
      decide (Shipping.shipKey q = some (o, d, c))) ≠ []) :
    Shipping.lookup3S (Shipping.loadAndProcessShippingData l) o d c =
      some (Shipping.mkShippingBucket
        (l.filter fun q => decide (Shipping.shipKey q = some (o, d, c)))) := by
  rw [lookup3S_load, ship_group_of_filter_ne hf]
  rfl

/-! ### Arithmetic lemmas about the JS helpers -/

theorem jsRound_mono {x y : ℚ} (h : x ≤ y) : jsRound x ≤ jsRound y :=
  Int.floor_le_floor (by linarith)

theorem jsRound_intCast (n : ℤ) : jsRound (n : ℚ) = n := by
  unfold jsRound
  rw [Int.floor_int_add]
  norm_num

theorem jsMin_le_left (a b : ℚ) : jsMin a b ≤ a := by
  unfold jsMin
  split <;> linarith

theorem jsMin_le_right (a b : ℚ) : jsMin a b ≤ b := by
  unfold jsMin
  split
  · assumption
  · linarith

theorem le_jsMax_left (a b : ℚ) : a ≤ jsMax a b := by
  unfold jsMax
  split <;> linarith

theorem le_jsMax_right (a b : ℚ) : b ≤ jsMax a b := by
  unfold jsMax
  split
  · assumption
  · linarith

theorem foldl_jsMin_le_init : ∀ (l : List ℚ) (a : ℚ), l.foldl jsMin a ≤ a := by
  intro l
  induction l with
  | nil => intro a; simp
  | cons y ys ih =>
      intro a
      rw [List.foldl_cons]
      exact le_trans (ih (jsMin a y)) (jsMin_le_left a y)

theorem foldl_jsMin_le_mem : ∀ (l : List ℚ) (a x : ℚ), x ∈ l →
    l.foldl jsMin a ≤ x := by
  intro l
  induction l with
  | nil => intro a x hx; cases hx
  | cons y ys ih =>
      intro a x hx
      rw [List.foldl_cons]
      rcases List.mem_cons.mp hx with hxy | hxs
      · subst hxy
        exact le_trans (foldl_jsMin_le_init ys (jsMin a x)) (jsMin_le_right a x)
      · exact ih (jsMin a y) x hxs

theorem init_le_foldl_jsMax : ∀ (l : List ℚ) (a : ℚ), a ≤ l.foldl jsMax a := by
  intro l
  induction l with
  | nil => intro a; simp
  | cons y ys ih =>
      intro a
      rw [List.foldl_cons]
      exact le_trans (le_jsMax_left a y) (ih (jsMax a y))

theorem mem_le_foldl_jsMax : ∀ (l : List ℚ) (a x : ℚ), x ∈ l →
    x ≤ l.foldl jsMax a := by
  intro l
  induction l with
  | nil => intro a x hx; cases hx
  | cons y ys ih =>
      intro a x hx
      rw [List.foldl_cons]
      rcases List.mem_cons.mp hx with hxy | hxs
      · subst hxy
        exact le_trans (le_jsMax_right a x) (init_le_foldl_jsMax ys (jsMax a x))
      · exact ih (jsMax a y) x hxs

theorem listMin_le {l : List ℚ} {x : ℚ} (h : x ∈ l) : listMin l ≤ x := by
  cases l with
  | nil => cases h
  | cons y ys =>
      rcases List.mem_cons.mp h with hxy | hxs
      · subst hxy
        exact foldl_jsMin_le_init ys x
      · exact foldl_jsMin_le_mem ys y x hxs

theorem le_listMax {l : List ℚ} {x : ℚ} (h : x ∈ l) : x ≤ listMax l := by
  cases l with
  | nil => cases h
  | cons y ys =>
      rcases List.mem_cons.mp h with hxy | hxs
      · subst hxy
        exact init_le_foldl_jsMax ys x
      · exact mem_le_foldl_jsMax ys y x hxs

theorem foldl_jsMin_mem : ∀ (l : List ℚ) (a : ℚ), l.foldl jsMin a ∈ a :: l := by
  intro l
  induction l with
  | nil => intro a; simp
  | cons y ys ih =>
      intro a
      rw [List.foldl_cons]
      have h := ih (jsMin a y)
      have : jsMin a y = a ∨ jsMin a y = y := by
        unfold jsMin
        split
        · exact Or.inl rfl
        · exact Or.inr rfl
      rcases List.mem_cons.mp h with hh | hh
      · rcases this with hay | hay <;> rw [hay] at hh ⊢ <;> simp [hh]
      · simp [hh]

theorem foldl_jsMax_mem : ∀ (l : List ℚ) (a : ℚ), l.foldl jsMax a ∈ a :: l := by
  intro l
  induction l with
  | nil => intro a; simp
  | cons y ys ih =>
      intro a
      rw [List.foldl_cons]
      have h := ih (jsMax a y)
      have : jsMax a y = a ∨ jsMax a y = y := by
        unfold jsMax
        split
        · exact Or.inl rfl
        · exact Or.inr rfl
      rcases List.mem_cons.mp h with hh | hh
      · rcases this with hay | hay <;> rw [hay] at hh ⊢ <;> simp [hh]
      · simp [hh]

theorem listMin_mem {l : List ℚ} (h : l ≠ []) : listMin l ∈ l := by
  cases l with
  | nil => exact absurd rfl h
  | cons y ys => exact foldl_jsMin_mem ys y

theorem listMax_mem {l : List ℚ} (h : l ≠ []) : listMax l ∈ l := by
  cases l with
  | nil => exact absurd rfl h
  | cons y ys => exact foldl_jsMax_mem ys y

theorem foldl_add_shift : ∀ (l : List ℚ) (a : ℚ),
    l.foldl (· + ·) a = a + l.foldl (· + ·) 0 := by
  intro l
  induction l with
  | nil => intro a; simp
  | cons x xs ih =>
      intro a
      rw [List.foldl_cons, List.foldl_cons, ih (a + x), ih (0 + x)]
      ring

theorem listSum_cons (x : ℚ) (xs : List ℚ) :
    listSum (x :: xs) = x + listSum xs := by
  unfold listSum
  rw [List.foldl_cons, foldl_add_shift]
  ring

theorem length_mul_le_listSum : ∀ (l : List ℚ) (m : ℚ), (∀ x ∈ l, m ≤ x) →
    (l.length : ℚ) * m ≤ listSum l := by
  intro l
  induction l with
  | nil => intro m _; simp [listSum]
  | cons x xs ih =>
      intro m h
      rw [listSum_cons]
      have h1 := ih m (fun y hy => h y (List.mem_cons_of_mem _ hy))
      have h2 := h x (List.mem_cons_self _ _)
      push_cast [List.length_cons]
      nlinarith

theorem listSum_le_length_mul : ∀ (l : List ℚ) (m : ℚ), (∀ x ∈ l, x ≤ m) →
    listSum l ≤ (l.length : ℚ) * m := by
  intro l
  induction l with
  | nil => intro m _; simp [listSum]
  | cons x xs ih =>
      intro m h
      rw [listSum_cons]
      have h1 := ih m (fun y hy => h y (List.mem_cons_of_mem _ hy))
      have h2 := h x (List.mem_cons_self _ _)
      push_cast [List.length_cons]
      nlinarith

/-- The mean of a nonempty list lies between its minimum and its maximum. -/
theorem mean_bounds {l : List ℚ} (h : l ≠ []) :
    listMin l ≤ listSum l / (l.length : ℚ) ∧
      listSum l / (l.length : ℚ) ≤ listMax l := by
  have hlen : 0 < (l.length : ℚ) := by
    have : 0 < l.length := List.length_pos.mpr h
    exact_mod_cast this
  constructor
  · rw [le_div_iff₀ hlen]
    have := length_mul_le_listSum l (listMin l) (fun x hx => listMin_le hx)
    linarith
  · rw [div_le_iff₀ hlen]
    have := listSum_le_length_mul l (listMax l) (fun x hx => le_listMax hx)
    linarith

/-! ### Bucket statistics lemmas -/

/-- Flight bucket statistics: the average is the JS-rounded mean of the
normalized prices, which can leave the `[minPrice, maxPrice]` interval by
at most one half (prices keep two decimals). -/
theorem mkFlightBucket_stats (quotes : List Flight.FlightQuote) (rs : List ℚ)
    (h : quotes ≠ []) :
    (Flight.mkFlightBucket quotes rs).1.averagePriceUSD =
      (jsRound (listSum (quotes.map fun q =>
          Flight.convertToUSD q.price q.currency) /
        ((quotes.map fun q => Flight.convertToUSD q.price q.currency).length :
          ℚ)) : ℚ) ∧
    (Flight.mkFlightBucket quotes rs).1.minPrice - 1/2 ≤
      (Flight.mkFlightBucket quotes rs).1.averagePriceUSD ∧
    (Flight.mkFlightBucket quotes rs).1.averagePriceUSD ≤
      (Flight.mkFlightBucket quotes rs).1.maxPrice + 1/2 := by
  have hprices : (quotes.map fun q =>
      Flight.convertToUSD q.price q.currency) ≠ [] := by
    simpa using h
  obtain ⟨hlo, hhi⟩ := mean_bounds hprices
  refine ⟨rfl, ?_, ?_⟩
  · show (Flight.mkFlightBucket quotes rs).1.minPrice - 1/2 ≤ _
    have hfl := Int.sub_one_lt_floor
      (listSum (quotes.map fun q => Flight.convertToUSD q.price q.currency) /
        ((quotes.map fun q =>
          Flight.convertToUSD q.price q.currency).length : ℚ) + 1/2)
    show listMin _ - 1/2 ≤ ((jsRound _ : ℤ) : ℚ)
    unfold jsRound
    linarith
  · have hfl := Int.floor_le
      (listSum (quotes.map fun q => Flight.convertToUSD q.price q.currency) /
        ((quotes.map fun q =>
          Flight.convertToUSD q.price q.currency).length : ℚ) + 1/2)
    show ((jsRound _ : ℤ) : ℚ) ≤ listMax _ + 1/2
    unfold jsRound
    linarith

/-- Every shipping-normalized price is an integer. -/
theorem ship_price_int (p : ℚ) (c : String) :
    ∃ n : ℤ, Shipping.convertToUSD p c = (n : ℚ) :=
  ⟨jsRound (p * (Shipping.CURRENCY_RATES c).getD 1), rfl⟩

/-- Shipping bucket statistics: whole-unit prices make the rounded mean land
inside `[minPrice, maxPrice]`. -/
theorem mkShippingBucket_stats (quotes : List Shipping.ShippingQuote)
    (h : quotes ≠ []) :
    (Shipping.mkShippingBucket quotes).averagePriceUSD =
      (jsRound (listSum (quotes.map fun q =>
          Shipping.convertToUSD q.price_of_shipping q.currency) /
        ((quotes.map fun q =>
          Shipping.convertToUSD q.price_of_shipping q.currency).length :
          ℚ)) : ℚ) ∧
    (Shipping.mkShippingBucket quotes).minPrice ≤
      (Shipping.mkShippingBucket quotes).averagePriceUSD ∧
    (Shipping.mkShippingBucket quotes).averagePriceUSD ≤
      (Shipping.mkShippingBucket quotes).maxPrice := by
  have hprices : (quotes.map fun q =>
      Shipping.convertToUSD q.price_of_shipping q.currency) ≠ [] := by
    simpa using h
  obtain ⟨hlo, hhi⟩ := mean_bounds hprices
  have hminmem := listMin_mem hprices
  have hmaxmem := listMax_mem hprices
  have hminint : ∃ n : ℤ,
      listMin (quotes.map fun q =>
        Shipping.convertToUSD q.price_of_shipping q.currency) = (n : ℚ) := by
    obtain ⟨q, _, hq⟩ := List.mem_map.mp hminmem
    rw [← hq]
    exact ship_price_int _ _
  have hmaxint : ∃ n : ℤ,
      listMax (quotes.map fun q =>
        Shipping.convertToUSD q.price_of_shipping q.currency) = (n : ℚ) := by
    obtain ⟨q, _, hq⟩ := List.mem_map.mp hmaxmem
    rw [← hq]
    exact ship_price_int _ _
  refine ⟨rfl, ?_, ?_⟩
  · obtain ⟨n, hn⟩ := hminint
    show listMin _ ≤ ((jsRound _ : ℤ) : ℚ)
    rw [hn]
    have h1 : jsRound ((n : ℚ)) ≤ jsRound
        (listSum (quotes.map fun q =>
          Shipping.convertToUSD q.price_of_shipping q.currency) /
          ((quotes.map fun q =>
            Shipping.convertToUSD q.price_of_shipping q.currency).length :
            ℚ)) := jsRound_mono (by rw [← hn]; exact hlo)
    rw [jsRound_intCast] at h1
    exact_mod_cast h1
  · obtain ⟨n, hn⟩ := hmaxint
    show ((jsRound _ : ℤ) : ℚ) ≤ listMax _
    rw [hn]
    have h1 : jsRound
        (listSum (quotes.map fun q =>
          Shipping.convertToUSD q.price_of_shipping q.currency) /
          ((quotes.map fun q =>
            Shipping.convertToUSD q.price_of_shipping q.currency).length :
            ℚ)) ≤ jsRound ((n : ℚ)) := jsRound_mono (by rw [← hn]; exact hhi)
    rw [jsRound_intCast] at h1
    exact_mod_cast h1

/-! ### Evidence sampler lemmas -/

theorem insertRand_length {α : Type} (q : α) :
    ∀ (l : List α) (rs : List ℚ),
      (Flight.insertRand q l rs).1.length = l.length + 1 := by
  intro l
  induction l with
  | nil => intro rs; rfl
  | cons y ys ih =>
      intro rs
      rw [Flight.insertRand]
      split
      · rfl
      · simp [ih]

theorem shuffleRand_length {α : Type} :
    ∀ (l : List α) (rs : List ℚ),
      (Flight.shuffleRand l rs).1.length = l.length := by
  intro l
  induction l with
  | nil => intro rs; rfl
  | cons x xs ih =>
      intro rs
      rw [Flight.shuffleRand]
      simp [insertRand_length, ih]

theorem sampleArray_length {α : Type} (l : List α) (n : ℕ) (rs : List ℚ) :
    (Flight.sampleArray l n rs).1.length = min n l.length := by
  simp [Flight.sampleArray, List.length_take, shuffleRand_length]

theorem insertRand_mem {α : Type} (q x : α) :
    ∀ (l : List α) (rs : List ℚ),
      x ∈ (Flight.insertRand q l rs).1 ↔ x = q ∨ x ∈ l := by
  intro l
  induction l with
  | nil => intro rs; simp [Flight.insertRand]
  | cons y ys ih =>
      intro rs
      rw [Flight.insertRand]
      split
      · simp
      · simp [ih]
        tauto

theorem shuffleRand_mem {α : Type} (x : α) :
    ∀ (l : List α) (rs : List ℚ),
      x ∈ (Flight.shuffleRand l rs).1 ↔ x ∈ l := by
  intro l
  induction l with
  | nil => intro rs; simp [Flight.shuffleRand]
  | cons y ys ih =>
      intro rs
      rw [Flight.shuffleRand]
      rw [insertRand_mem]
      simp [ih]

theorem sampleArray_mem {α : Type} {l : List α} {n : ℕ} {rs : List ℚ} {x : α}
    (h : x ∈ (Flight.sampleArray l n rs).1) : x ∈ l := by
  unfold Flight.sampleArray at h
  exact (shuffleRand_mem x l rs).mp (List.mem_of_mem_take h)

/-- The flight evidence list has length
`min 10 (min 7 #withScreenshots + min 3 #withoutScreenshots)`. -/
theorem mkFlightBucket_evidence_length (quotes : List Flight.FlightQuote)
    (rs : List ℚ) :
    (Flight.mkFlightBucket quotes rs).1.evidence.length =
      min 10 (min 7 (quotes.filter fun q => strTruthy q.screenshot_url).length +
        min 3 (quotes.filter fun q => ! strTruthy q.screenshot_url).length) := by
  show ((((Flight.sampleArray _ 7 rs).1 ++
      (Flight.sampleArray _ 3 (Flight.sampleArray _ 7 rs).2).1).take 10).map
        Flight.toEvidenceItem).length = _
  rw [List.length_map, List.length_take, List.length_append,
    sampleArray_length, sampleArray_length]

/-- The shipping evidence list has length
`min 7 a + min (10 - a)⁺ b` where `a`/`b` count quotes with/without
screenshots. -/
theorem mkShippingBucket_evidence_length (quotes : List Shipping.ShippingQuote) :
    (Shipping.mkShippingBucket quotes).evidence.length =
      min 7 (quotes.filter fun q => strTruthy q.screenshot_url).length +
        min (max 0 (10 -
            ((quotes.filter fun q => strTruthy q.screenshot_url).length : ℤ))).toNat
          (quotes.filter fun q => ! strTruthy q.screenshot_url).length := by
  show ((quotes.filter fun q => strTruthy q.screenshot_url).take 7 ++
      (quotes.filter fun q => ! strTruthy q.screenshot_url).take _).length = _
  rw [List.length_append, List.length_take, List.length_take]

/-- The two screenshot filters partition a bucket's quotes. -/
theorem length_filter_partition {α : Type} (p : α → Bool) (l : List α) :
    (l.filter p).length + (l.filter fun x => ! p x).length = l.length :=
  (List.length_eq_length_filter_add p).symm

/-! ### Currency conversion lemmas -/

theorem flight_rate_pos {c : String} {r : ℚ}
    (h : Flight.CURRENCY_RATES c = some r) : 0 < r := by
  unfold Flight.CURRENCY_RATES at h
  split_ifs at h <;> cases h <;> norm_num

theorem ship_rate_pos (c : String) :
    0 < (Shipping.CURRENCY_RATES c).getD 1 := by
  unfold Shipping.CURRENCY_RATES
  split_ifs <;> norm_num

theorem flight_convert_mono (c : String) {x y : ℚ} (h : x ≤ y) :
    Flight.convertToUSD x c ≤ Flight.convertToUSD y c := by
  unfold Flight.convertToUSD Flight.convertToUSDW
  cases hr : Flight.CURRENCY_RATES c with
  | none => simpa using h
  | some r =>
      have hrpos := flight_rate_pos hr
      have hmono : jsRound (x * r * 100) ≤ jsRound (y * r * 100) :=
        jsRound_mono (by nlinarith)
      have hcast : ((jsRound (x * r * 100) : ℤ) : ℚ) ≤
          ((jsRound (y * r * 100) : ℤ) : ℚ) := by exact_mod_cast hmono
      show ((jsRound (x * r * 100) : ℤ) : ℚ) / 100 ≤
        ((jsRound (y * r * 100) : ℤ) : ℚ) / 100
      linarith

theorem ship_convert_mono (c : String) {x y : ℚ} (h : x ≤ y) :
    Shipping.convertToUSD x c ≤ Shipping.convertToUSD y c := by
  have hrpos := ship_rate_pos c
  have hmono : jsRound (x * (Shipping.CURRENCY_RATES c).getD 1) ≤
      jsRound (y * (Shipping.CURRENCY_RATES c).getD 1) :=
    jsRound_mono (by nlinarith)
  unfold Shipping.convertToUSD
  show ((jsRound (x * (Shipping.CURRENCY_RATES c).getD 1) : ℤ) : ℚ) ≤
    ((jsRound (y * (Shipping.CURRENCY_RATES c).getD 1) : ℤ) : ℚ)
  exact_mod_cast hmono

theorem flight_convert_usd_cents (k : ℤ) :
    Flight.convertToUSD ((k : ℚ) / 100) "USD" = (k : ℚ) / 100 := by
  have husd : Flight.CURRENCY_RATES "USD" = some 1 := by decide
  unfold Flight.convertToUSD Flight.convertToUSDW
  rw [husd]
  show ((jsRound ((k : ℚ) / 100 * 1 * 100) : ℤ) : ℚ) / 100 = (k : ℚ) / 100
  have harg : (k : ℚ) / 100 * 1 * 100 = (k : ℚ) := by field_simp
  rw [harg, jsRound_intCast]

theorem ship_convert_usd_int (k : ℤ) :
    Shipping.convertToUSD (k : ℚ) "USD" = (k : ℚ) := by
  have husd : Shipping.CURRENCY_RATES "USD" = some 1 := by decide
  unfold Shipping.convertToUSD
  rw [husd]
  simp [jsRound_intCast]

theorem flight_convert_unknown (p : ℚ) (c : String)
    (h : Flight.CURRENCY_RATES c = none) :
    Flight.convertToUSDW p c = (p, true) := by
  unfold Flight.convertToUSDW
  rw [h]

theorem ship_convert_unknown (p : ℚ) (c : String)
    (h : Shipping.CURRENCY_RATES c = none) :
    Shipping.convertToUSD p c = (jsRound p : ℚ) := by
  unfold Shipping.convertToUSD
  rw [h]
  simp

/-! ### Claim theorems -/

/-- Claim C9 — confirmed.  The evidence sampler is not a deterministic function
of its input array: on the identical two-quote array and count, two streams
of comparator draws yield selections with different membership. -/
theorem sampleArray_not_deterministic :
    (Flight.sampleArray [flightQuoteRandA, flightQuoteRandB] 1 [(1 : ℚ)]).1 =
        [flightQuoteRandA] ∧
    (Flight.sampleArray [flightQuoteRandA, flightQuoteRandB] 1 [(0 : ℚ)]).1 =
        [flightQuoteRandB] ∧
    flightQuoteRandB ∉
      (Flight.sampleArray [flightQuoteRandA, flightQuoteRandB] 1 [(1 : ℚ)]).1 ∧
    flightQuoteRandB ∈
      (Flight.sampleArray [flightQuoteRandA, flightQuoteRandB] 1 [(0 : ℚ)]).1 := by
  refine ⟨by with_unfolding_all decide, by with_unfolding_all decide, by with_unfolding_all decide, by with_unfolding_all decide⟩

/-- Claim C10 — confirmed.  A shipping bucket with a genuine zero average
(reachable from a zero-priced quote) produces the same `CostMatrixView` as a
matrix with no bucket at all: the `|| 0` write makes the zero sentinel and a
real zero indistinguishable to consumers. -/
theorem costMatrix_zero_average_indistinguishable :
    shipMatrixZero = Shipping.loadAndProcessShippingData [shipQuoteFree] ∧
    Shipping.lookup3S shipMatrixZero "north-america" "north-america" "20ft" =
        some shipBucketZero ∧
    shipBucketZero.averagePriceUSD = 0 ∧
    Shipping.lookup3S ([] : Shipping.ProcessedShippingMatrix)
        "north-america" "north-america" "20ft" = none ∧
    CostGen.generateCostMatrix none (some shipMatrixZero) =
      CostGen.generateCostMatrix none (some []) := by
  refine ⟨by with_unfolding_all decide, by with_unfolding_all decide, rfl, rfl,
    ?_⟩
  show CostGen.CostMatrix.mk _ _ _ = CostGen.CostMatrix.mk _ _ _
  congr 1

/-- Claim C1 — counterexample.  A single flight quote priced 10.6 USD yields a
bucket whose rounded-mean `averagePriceUSD` (11) strictly exceeds its
`maxPrice` (10.6), refuting `averagePriceUSD ≤ maxPrice` as stated. -/
theorem flight_average_exceeds_max_counterexample :
    Flight.lookup3 (Flight.processFlightDataToMatrix flightDataHalf [])
        "north-america" "north-america" "single" = some flightBucketHalf ∧
    flightBucketHalf.maxPrice < flightBucketHalf.averagePriceUSD := by
  refine ⟨by with_unfolding_all decide, by with_unfolding_all decide⟩

/-! ### Cost-matrix cell lemmas -/

theorem lookupCell_map3 {β γ δ : Type} (l1 : List β) (k1 : β → String)
    (l2 : List γ) (k2 : γ → String) (l3 : List δ) (k3 : δ → String)
    (val : β → γ → δ → ℚ) {b1 : β} {b2 : γ} {b3 : δ}
    (hb1 : b1 ∈ l1) (hb2 : b2 ∈ l2) (hb3 : b3 ∈ l3)
    (nd1 : (l1.map k1).Nodup) (nd2 : (l2.map k2).Nodup)
    (nd3 : (l3.map k3).Nodup) :
    CostGen.lookupCell
      (l1.map fun x => (k1 x, l2.map fun y => (k2 y, l3.map fun z =>
        (k3 z, val x y z))))
      (k1 b1) (k2 b2) (k3 b3) = some (val b1 b2 b3) := by
  unfold CostGen.lookupCell
  rw [lookupA_map_key l1 k1 _ b1 hb1 nd1]
  dsimp only
  rw [lookupA_map_key l2 k2 _ b2 hb2 nd2]
  dsimp only
  exact lookupA_map_key l3 k3 _ b3 hb3 nd3

theorem lookupCell_flights (fm : Option Flight.ProcessedFlightMatrix)
    (sm : Option Shipping.ProcessedShippingMatrix)
    {ro rd : CostGen.Region} {fs : CostGen.FamilySize}
    (hro : ro ∈ CostGen.REGIONS) (hrd : rd ∈ CostGen.REGIONS)
    (hfs : fs ∈ CostGen.FAMILY_SIZES) :
    CostGen.lookupCell (CostGen.generateCostMatrix fm sm).flights
        ro.id rd.id fs.id =
      some (CostGen.flightCellValue fm ro.id rd.id fs.id) :=
  lookupCell_map3 CostGen.REGIONS CostGen.Region.id CostGen.REGIONS
    CostGen.Region.id CostGen.FAMILY_SIZES CostGen.FamilySize.id
    (fun x y z => CostGen.flightCellValue fm x.id y.id z.id)
    hro hrd hfs (by decide) (by decide) (by decide)

theorem lookupCell_accommodation (fm : Option Flight.ProcessedFlightMatrix)
    (sm : Option Shipping.ProcessedShippingMatrix)
    {ro rd : CostGen.Region} {fs : CostGen.FamilySize}
    (hro : ro ∈ CostGen.REGIONS) (hrd : rd ∈ CostGen.REGIONS)
    (hfs : fs ∈ CostGen.FAMILY_SIZES) :
    CostGen.lookupCell (CostGen.generateCostMatrix fm sm).accommodation
        ro.id rd.id fs.id =
      some (CostGen.accommodationCellValue ro.id rd.id fs.multiplier) :=
  lookupCell_map3 CostGen.REGIONS CostGen.Region.id CostGen.REGIONS
    CostGen.Region.id CostGen.FAMILY_SIZES CostGen.FamilySize.id
    (fun x y z => CostGen.accommodationCellValue x.id y.id z.multiplier)
    hro hrd hfs (by decide) (by decide) (by decide)

theorem lookupCell_shipping (fm : Option Flight.ProcessedFlightMatrix)
    (sm : Option Shipping.ProcessedShippingMatrix)
    {ro rd : CostGen.Region} {ct : String}
    (hro : ro ∈ CostGen.REGIONS) (hrd : rd ∈ CostGen.REGIONS)
    (hct : ct ∈ CostGen.CONTAINER_TYPE_IDS) :
    CostGen.lookupCell (CostGen.generateCostMatrix fm sm).shipping
        ro.id rd.id ct =
      some (CostGen.shippingCellValue sm ro.id rd.id ct) := by
  unfold CostGen.lookupCell
  rw [show (CostGen.generateCostMatrix fm sm).shipping =
      CostGen.REGIONS.map (fun x => (CostGen.Region.id x,
        CostGen.REGIONS.map fun y => (CostGen.Region.id y,
          [ ("20ft", CostGen.shippingCellValue sm x.id y.id "20ft")
          , ("40ft", CostGen.shippingCellValue sm x.id y.id "40ft") ]))) from rfl]
  rw [lookupA_map_key CostGen.REGIONS CostGen.Region.id _ ro hro (by decide)]
  dsimp only
  rw [lookupA_map_key CostGen.REGIONS CostGen.Region.id _ rd hrd (by decide)]
  dsimp only
  rcases List.mem_cons.mp hct with h20 | h40
  · subst h20
    rfl
  · have : ct = "40ft" := by simpa using h40
    subst this
    rfl

/-- Claim C1 — amended.  For every materialized bucket, `minPrice` and
`maxPrice` are the minimum and maximum of the bucket's normalized USD
prices (each is a member of the price list bounding it below resp. above),
and `averagePriceUSD` equals the JS-rounded mean of those prices.  The
bounds `minPrice ≤ averagePriceUSD ≤ maxPrice` hold exactly for shipping
buckets (whole-unit prices); for flight buckets (two-decimal prices) the
rounded mean can overshoot either bound by at most one half, as the
counterexample forces. -/
theorem bucket_statistics_amended :
    (∀ (ds : Flight.FlightDataSet) (rs : List ℚ) (o d p : String)
        (b : Flight.RegionMatrixData),
      Flight.lookup3 (Flight.processFlightDataToMatrix ds rs) o d p = some b →
      ∃ quotes, quotes = ds.flight_quotes.filter
          (fun q => decide (Flight.flightKey q = some (o, d, p))) ∧
        quotes ≠ [] ∧
        b.minPrice ∈ quotes.map (fun q =>
          Flight.convertToUSD q.price q.currency) ∧
        (∀ x ∈ quotes.map (fun q => Flight.convertToUSD q.price q.currency),
          b.minPrice ≤ x) ∧
        b.maxPrice ∈ quotes.map (fun q =>
          Flight.convertToUSD q.price q.currency) ∧
        (∀ x ∈ quotes.map (fun q => Flight.convertToUSD q.price q.currency),
          x ≤ b.maxPrice) ∧
        b.averagePriceUSD = (jsRound (listSum (quotes.map fun q =>
            Flight.convertToUSD q.price q.currency) /
          ((quotes.map fun q =>
            Flight.convertToUSD q.price q.currency).length : ℚ)) : ℚ) ∧
        b.minPrice - 1/2 ≤ b.averagePriceUSD ∧
        b.averagePriceUSD ≤ b.maxPrice + 1/2) ∧
    (∀ (l : List Shipping.ShippingQuote) (o d c : String)
        (b : Shipping.ProcessedShippingData),
      Shipping.lookup3S (Shipping.loadAndProcessShippingData l) o d c =
          some b →
      ∃ quotes, quotes = l.filter
          (fun q => decide (Shipping.shipKey q = some (o, d, c))) ∧
        quotes ≠ [] ∧
        b.minPrice ∈ quotes.map (fun q =>
          Shipping.convertToUSD q.price_of_shipping q.currency) ∧
        (∀ x ∈ quotes.map (fun q =>
            Shipping.convertToUSD q.price_of_shipping q.currency),
          b.minPrice ≤ x) ∧
        b.maxPrice ∈ quotes.map (fun q =>
          Shipping.convertToUSD q.price_of_shipping q.currency) ∧
        (∀ x ∈ quotes.map (fun q =>
            Shipping.convertToUSD q.price_of_shipping q.currency),
          x ≤ b.maxPrice) ∧
        b.averagePriceUSD = (jsRound (listSum (quotes.map fun q =>
            Shipping.convertToUSD q.price_of_shipping q.currency) /
          ((quotes.map fun q =>
            Shipping.convertToUSD q.price_of_shipping q.currency).length :
            ℚ)) : ℚ) ∧
        b.minPrice ≤ b.averagePriceUSD ∧
        b.averagePriceUSD ≤ b.maxPrice) := by
  constructor
  · intro ds rs o d p b h
    obtain ⟨rs', hne, hb⟩ := flight_lookup_some h
    obtain ⟨havg, hlo, hhi⟩ := mkFlightBucket_stats _ rs' hne
    have hpne : ((ds.flight_quotes.filter fun q =>
        decide (Flight.flightKey q = some (o, d, p))).map fun q =>
          Flight.convertToUSD q.price q.currency) ≠ [] := by
      simpa using hne
    rw [hb]
    exact ⟨_, rfl, hne, listMin_mem hpne, fun x hx => listMin_le hx,
      listMax_mem hpne, fun x hx => le_listMax hx, havg, hlo, hhi⟩
  · intro l o d c b h
    obtain ⟨hne, hb⟩ := ship_lookup_some h
    obtain ⟨havg, hlo, hhi⟩ := mkShippingBucket_stats _ hne
    have hpne : ((l.filter fun q =>
        decide (Shipping.shipKey q = some (o, d, c))).map fun q =>
          Shipping.convertToUSD q.price_of_shipping q.currency) ≠ [] := by
      simpa using hne
    rw [hb]
    exact ⟨_, rfl, hne, listMin_mem hpne, fun x hx => listMin_le hx,
      listMax_mem hpne, fun x hx => le_listMax hx, havg, hlo, hhi⟩

/-- Witness for the amended C1 statement at concrete data sets. -/
theorem bucket_statistics_amended_witness :
    (∃ quotes, quotes = flightDataThree.flight_quotes.filter
        (fun q => decide (Flight.flightKey q =
          some ("north-america", "north-america", "single"))) ∧
      quotes ≠ [] ∧
      flightBucketThree.minPrice ∈ quotes.map (fun q =>
        Flight.convertToUSD q.price q.currency) ∧
      (∀ x ∈ quotes.map (fun q => Flight.convertToUSD q.price q.currency),
        flightBucketThree.minPrice ≤ x) ∧
      flightBucketThree.maxPrice ∈ quotes.map (fun q =>
        Flight.convertToUSD q.price q.currency) ∧
      (∀ x ∈ quotes.map (fun q => Flight.convertToUSD q.price q.currency),
        x ≤ flightBucketThree.maxPrice) ∧
      flightBucketThree.averagePriceUSD = (jsRound (listSum (quotes.map fun q =>
          Flight.convertToUSD q.price q.currency) /
        ((quotes.map fun q =>
          Flight.convertToUSD q.price q.currency).length : ℚ)) : ℚ) ∧
      flightBucketThree.minPrice - 1/2 ≤ flightBucketThree.averagePriceUSD ∧
      flightBucketThree.averagePriceUSD ≤ flightBucketThree.maxPrice + 1/2) ∧
    (∃ quotes, quotes = shipDataOne.filter
        (fun q => decide (Shipping.shipKey q =
          some ("north-america", "emea", "40ft"))) ∧
      quotes ≠ [] ∧
      shipBucketOne.minPrice ∈ quotes.map (fun q =>
        Shipping.convertToUSD q.price_of_shipping q.currency) ∧
      (∀ x ∈ quotes.map (fun q =>
          Shipping.convertToUSD q.price_of_shipping q.currency),
        shipBucketOne.minPrice ≤ x) ∧
      shipBucketOne.maxPrice ∈ quotes.map (fun q =>
        Shipping.convertToUSD q.price_of_shipping q.currency) ∧
      (∀ x ∈ quotes.map (fun q =>
          Shipping.convertToUSD q.price_of_shipping q.currency),
        x ≤ shipBucketOne.maxPrice) ∧
      shipBucketOne.averagePriceUSD = (jsRound (listSum (quotes.map fun q =>
          Shipping.convertToUSD q.price_of_shipping q.currency) /
        ((quotes.map fun q =>
          Shipping.convertToUSD q.price_of_shipping q.currency).length :
          ℚ)) : ℚ) ∧
      shipBucketOne.minPrice ≤ shipBucketOne.averagePriceUSD ∧
      shipBucketOne.averagePriceUSD ≤ shipBucketOne.maxPrice) :=
  ⟨bucket_statistics_amended.1 flightDataThree [] "north-america"
      "north-america" "single" flightBucketThree (by with_unfolding_all decide),
   bucket_statistics_amended.2 shipDataOne "north-america" "emea" "40ft"
      shipBucketOne (by with_unfolding_all decide)⟩

/-- Claim C2 — counterexample.  The shipping mapper never drops a label that
is missing from the static table: "AFRICA" is not in `REGION_MAPPING`, yet
its quote is aggregated under the fallback key "africa" and appears in the
bucket's evidence, refuting the silent-drop claim for shipping quotes. -/
theorem unmapped_shipping_label_aggregated_counterexample :
    Shipping.REGION_MAPPING "AFRICA" = none ∧
    Shipping.lookup3S (Shipping.loadAndProcessShippingData [shipQuoteAfrica])
        "africa" "emea" "20ft" = some shipBucketAfrica ∧
    shipBucketAfrica.sampleCount = 1 ∧
    shipQuoteAfrica ∈ shipBucketAfrica.evidence := by
  refine ⟨rfl, by with_unfolding_all decide, by with_unfolding_all decide,
    by with_unfolding_all decide⟩

/-- Claim C2 — amended.  Flight quotes with an unmapped origin region,
destination region or passenger type are dropped from the whole pipeline
(removing such a quote leaves the matrix unchanged).  A shipping quote is
dropped only when a fallback-mapped region is the empty string; otherwise —
unknown labels included — it is aggregated under its (fallback) key. -/
theorem mapping_drop_amended :
    (∀ (q : Flight.FlightQuote), Flight.flightKey q = none →
      ∀ (ts : String) (tq : ℚ) (l₁ l₂ : List Flight.FlightQuote)
        (rs : List ℚ),
        Flight.processFlightDataToMatrix ⟨ts, tq, l₁ ++ q :: l₂⟩ rs =
          Flight.processFlightDataToMatrix ⟨ts, tq, l₁ ++ l₂⟩ rs) ∧
    (∀ (q : Shipping.ShippingQuote), Shipping.shipKey q = none →
      ∀ (l₁ l₂ : List Shipping.ShippingQuote),
        Shipping.loadAndProcessShippingData (l₁ ++ q :: l₂) =
          Shipping.loadAndProcessShippingData (l₁ ++ l₂)) ∧
    (∀ (q : Shipping.ShippingQuote) (l : List Shipping.ShippingQuote)
        (o d c : String), q ∈ l → Shipping.shipKey q = some (o, d, c) →
      ∃ qs, Shipping.lookup3G (Shipping.groupShippingQuotes l) o d c =
          some qs ∧ q ∈ qs) := by
  refine ⟨?_, ?_, ?_⟩
  · intro q hq ts tq l₁ l₂ rs
    have hgroup : Flight.groupFlightQuotes (l₁ ++ q :: l₂) =
        Flight.groupFlightQuotes (l₁ ++ l₂) := by
      unfold Flight.groupFlightQuotes
      rw [List.foldl_append, List.foldl_append, List.foldl_cons]
      rw [show Flight.groupStep (List.foldl Flight.groupStep [] l₁) q =
          List.foldl Flight.groupStep [] l₁ by simp [Flight.groupStep, hq]]
    unfold Flight.processFlightDataToMatrix
    rw [show Flight.FlightDataSet.flight_quotes ⟨ts, tq, l₁ ++ q :: l₂⟩ =
        l₁ ++ q :: l₂ from rfl]
    rw [show Flight.FlightDataSet.flight_quotes ⟨ts, tq, l₁ ++ l₂⟩ =
        l₁ ++ l₂ from rfl]
    rw [hgroup]
  · intro q hq l₁ l₂
    have hgroup : Shipping.groupShippingQuotes (l₁ ++ q :: l₂) =
        Shipping.groupShippingQuotes (l₁ ++ l₂) := by
      unfold Shipping.groupShippingQuotes
      rw [List.foldl_append, List.foldl_append, List.foldl_cons]
      rw [show Shipping.groupStep (List.foldl Shipping.groupStep [] l₁) q =
          List.foldl Shipping.groupStep [] l₁ by simp [Shipping.groupStep, hq]]
    unfold Shipping.loadAndProcessShippingData
    rw [hgroup]
  · intro q l o d c hql hk
    have hqf : q ∈ l.filter
        (fun q' => decide (Shipping.shipKey q' = some (o, d, c))) :=
      List.mem_filter.mpr ⟨hql, by simp [hk]⟩
    exact ⟨_, ship_group_of_filter_ne (List.ne_nil_of_mem hqf), hqf⟩

/-- Witness for the amended C2 statement at concrete quotes. -/
theorem mapping_drop_amended_witness :
    (Flight.processFlightDataToMatrix ⟨"t", 1, [] ++ flightQuoteMars :: []⟩ [] =
      Flight.processFlightDataToMatrix ⟨"t", 1, [] ++ []⟩ []) ∧
    (Shipping.loadAndProcessShippingData ([] ++ shipQuoteNoRegion :: []) =
      Shipping.loadAndProcessShippingData ([] ++ [])) ∧
    (∃ qs, Shipping.lookup3G
        (Shipping.groupShippingQuotes [shipQuoteAfrica]) "africa" "emea"
        "20ft" = some qs ∧ shipQuoteAfrica ∈ qs) :=
  ⟨mapping_drop_amended.1 flightQuoteMars (by with_unfolding_all decide)
      "t" 1 [] [] [],
   mapping_drop_amended.2.1 shipQuoteNoRegion (by with_unfolding_all decide)
      [] [],
   mapping_drop_amended.2.2 shipQuoteAfrica [shipQuoteAfrica] "africa" "emea"
      "20ft" (List.mem_singleton.mpr rfl) (by with_unfolding_all decide)⟩

/-- Claim C3 — counterexample.  A shipping bucket of 12 quotes, 9 of them with
screenshots, yields an evidence list of length 8, not the claimed 10: the
fill amount is computed as `10 - 9 = 1` from the total screenshot count
rather than from the 7 actually taken. -/
theorem shipping_evidence_fill_counterexample :
    Shipping.lookup3S (Shipping.loadAndProcessShippingData shipQuotes12)
        "north-america" "north-america" "20ft" = some shipBucket12 ∧
    shipBucket12.sampleCount = 12 ∧
    (shipQuotes12.filter fun q => strTruthy q.screenshot_url).length = 9 ∧
    shipBucket12.evidence.length = 8 ∧
    shipBucket12.evidence.length ≠ 10 := by
  refine ⟨by with_unfolding_all decide, by with_unfolding_all decide,
    by with_unfolding_all decide, by with_unfolding_all decide,
    by with_unfolding_all decide⟩

/-- Claim C3 — amended.  The evidence selection is a hard split in both
domains, not an exact fill: a flight bucket draws up to 7 screenshot quotes
plus up to 3 non-screenshot quotes (capped at 10), and a shipping bucket
draws up to 7 screenshot quotes plus `max 0 (10 - #screenshotQuotes)`
non-screenshot quotes, where the subtrahend is the total screenshot count,
so a bucket of 12 quotes with 9 screenshots yields 8 evidence items. -/
theorem evidence_fill_amended :
    (∀ (ds : Flight.FlightDataSet) (rs : List ℚ) (o d p : String)
        (b : Flight.RegionMatrixData),
      Flight.lookup3 (Flight.processFlightDataToMatrix ds rs) o d p = some b →
      ∃ quotes, quotes = ds.flight_quotes.filter
          (fun q => decide (Flight.flightKey q = some (o, d, p))) ∧
        b.evidence.length = min 10
          (min 7 (quotes.filter fun q => strTruthy q.screenshot_url).length +
            min 3 (quotes.filter fun q =>
              ! strTruthy q.screenshot_url).length)) ∧
    (∀ (l : List Shipping.ShippingQuote) (o d c : String)
        (b : Shipping.ProcessedShippingData),
      Shipping.lookup3S (Shipping.loadAndProcessShippingData l) o d c =
          some b →
      ∃ quotes, quotes = l.filter
          (fun q => decide (Shipping.shipKey q = some (o, d, c))) ∧
        b.evidence.length =
          min 7 (quotes.filter fun q => strTruthy q.screenshot_url).length +
            min (max 0 (10 - ((quotes.filter fun q =>
                strTruthy q.screenshot_url).length : ℤ))).toNat
              (quotes.filter fun q => ! strTruthy q.screenshot_url).length) := by
  constructor
  · intro ds rs o d p b h
    obtain ⟨rs', _, hb⟩ := flight_lookup_some h
    rw [hb]
    exact ⟨_, rfl, mkFlightBucket_evidence_length _ rs'⟩
  · intro l o d c b h
    obtain ⟨_, hb⟩ := ship_lookup_some h
    rw [hb]
    exact ⟨_, rfl, mkShippingBucket_evidence_length _⟩

/-- Witness for the amended C3 statement at concrete data sets. -/
theorem evidence_fill_amended_witness :
    (∃ quotes, quotes = flightDataThree.flight_quotes.filter
        (fun q => decide (Flight.flightKey q =
          some ("north-america", "north-america", "single"))) ∧
      flightBucketThree.evidence.length = min 10
        (min 7 (quotes.filter fun q => strTruthy q.screenshot_url).length +
          min 3 (quotes.filter fun q =>
            ! strTruthy q.screenshot_url).length)) ∧
    (∃ quotes, quotes = shipQuotes12.filter
        (fun q => decide (Shipping.shipKey q =
          some ("north-america", "north-america", "20ft"))) ∧
      shipBucket12.evidence.length =
        min 7 (quotes.filter fun q => strTruthy q.screenshot_url).length +
          min (max 0 (10 - ((quotes.filter fun q =>
              strTruthy q.screenshot_url).length : ℤ))).toNat
            (quotes.filter fun q => ! strTruthy q.screenshot_url).length) :=
  ⟨evidence_fill_amended.1 flightDataThree [] "north-america" "north-america"
      "single" flightBucketThree (by with_unfolding_all decide),
   evidence_fill_amended.2 shipQuotes12 "north-america" "north-america"
      "20ft" shipBucket12 (by with_unfolding_all decide)⟩

/-- Claim C4 — confirmed.  Every materialized bucket's evidence list length
lies between 0 and `min 10 sampleCount`, in both domains. -/
theorem evidence_bound :
    (∀ (ds : Flight.FlightDataSet) (rs : List ℚ) (o d p : String)
        (b : Flight.RegionMatrixData),
      Flight.lookup3 (Flight.processFlightDataToMatrix ds rs) o d p = some b →
      0 ≤ b.evidence.length ∧ b.evidence.length ≤ min 10 b.sampleCount) ∧
    (∀ (l : List Shipping.ShippingQuote) (o d c : String)
        (b : Shipping.ProcessedShippingData),
      Shipping.lookup3S (Shipping.loadAndProcessShippingData l) o d c =
          some b →
      0 ≤ b.evidence.length ∧ b.evidence.length ≤ min 10 b.sampleCount) := by
  constructor
  · intro ds rs o d p b h
    obtain ⟨rs', _, hb⟩ := flight_lookup_some h
    rw [hb]
    have hlen := mkFlightBucket_evidence_length
      (ds.flight_quotes.filter fun q =>
        decide (Flight.flightKey q = some (o, d, p))) rs'
    have hpart := length_filter_partition
      (fun q => strTruthy q.screenshot_url)
      (ds.flight_quotes.filter fun q =>
        decide (Flight.flightKey q = some (o, d, p)))
    rw [hlen]
    have hsc : (Flight.mkFlightBucket
        (ds.flight_quotes.filter fun q =>
          decide (Flight.flightKey q = some (o, d, p))) rs').1.sampleCount =
        (ds.flight_quotes.filter fun q =>
          decide (Flight.flightKey q = some (o, d, p))).length := rfl
    rw [hsc]
    omega
  · intro l o d c b h
    obtain ⟨_, hb⟩ := ship_lookup_some h
    rw [hb]
    have hlen := mkShippingBucket_evidence_length
      (l.filter fun q => decide (Shipping.shipKey q = some (o, d, c)))
    have hpart := length_filter_partition
      (fun q => strTruthy q.screenshot_url)
      (l.filter fun q => decide (Shipping.shipKey q = some (o, d, c)))
    rw [hlen]
    have hsc : (Shipping.mkShippingBucket
        (l.filter fun q =>
          decide (Shipping.shipKey q = some (o, d, c)))).sampleCount =
        (l.filter fun q =>
          decide (Shipping.shipKey q = some (o, d, c))).length := rfl
    rw [hsc]
    omega

/-- Witness for C4 at concrete data sets. -/
theorem evidence_bound_witness :
    (0 ≤ flightBucketThree.evidence.length ∧
      flightBucketThree.evidence.length ≤
        min 10 flightBucketThree.sampleCount) ∧
    (0 ≤ shipBucket12.evidence.length ∧
      shipBucket12.evidence.length ≤ min 10 shipBucket12.sampleCount) :=
  ⟨evidence_bound.1 flightDataThree [] "north-america" "north-america"
      "single" flightBucketThree (by with_unfolding_all decide),
   evidence_bound.2 shipQuotes12 "north-america" "north-america" "20ft"
      shipBucket12 (by with_unfolding_all decide)⟩

/-- Claim C5 — confirmed.  Every quote whose labels map sits in exactly one
grouping bucket — the one at its mapped key — that bucket materializes with
`sampleCount` equal to the number of quotes sharing the key, and no bucket
is ever materialized with zero quotes, in both domains. -/
theorem grouping_correctness :
    (∀ (ds : Flight.FlightDataSet) (q : Flight.FlightQuote) (o d p : String),
      q ∈ ds.flight_quotes → Flight.flightKey q = some (o, d, p) →
      (∀ k' : String × String × String,
        (∃ qs, lookupA (Flight.groupFlightQuotes ds.flight_quotes) k' =
          some qs ∧ q ∈ qs) ↔ k' = (o, d, p)) ∧
      (∀ rs : List ℚ, ∃ b,
        Flight.lookup3 (Flight.processFlightDataToMatrix ds rs) o d p =
          some b ∧
        b.sampleCount = (ds.flight_quotes.filter fun q' =>
          decide (Flight.flightKey q' = some (o, d, p))).length)) ∧
    (∀ (ds : Flight.FlightDataSet) (rs : List ℚ) (o d p : String)
        (b : Flight.RegionMatrixData),
      Flight.lookup3 (Flight.processFlightDataToMatrix ds rs) o d p = some b →
      0 < b.sampleCount) ∧
    (∀ (l : List Shipping.ShippingQuote) (q : Shipping.ShippingQuote)
        (o d c : String), q ∈ l → Shipping.shipKey q = some (o, d, c) →
      (∀ k' : String × String × String,
        (∃ qs, Shipping.lookup3G (Shipping.groupShippingQuotes l)
          k'.1 k'.2.1 k'.2.2 = some qs ∧ q ∈ qs) ↔ k' = (o, d, c)) ∧
      (∃ b, Shipping.lookup3S (Shipping.loadAndProcessShippingData l) o d c =
          some b ∧
        b.sampleCount = (l.filter fun q' =>
          decide (Shipping.shipKey q' = some (o, d, c))).length)) ∧
    (∀ (l : List Shipping.ShippingQuote) (o d c : String)
        (b : Shipping.ProcessedShippingData),
      Shipping.lookup3S (Shipping.loadAndProcessShippingData l) o d c =
          some b →
      0 < b.sampleCount) := by
  refine ⟨?_, ?_, ?_, ?_⟩
  · intro ds q o d p hq hk
    have hqf : q ∈ ds.flight_quotes.filter
        (fun q' => decide (Flight.flightKey q' = some (o, d, p))) :=
      List.mem_filter.mpr ⟨hq, by simp [hk]⟩
    constructor
    · intro k'
      constructor
      · rintro ⟨qs, hqs, hmem⟩
        obtain ⟨hfil, -⟩ := flight_group_some hqs
        rw [hfil] at hmem
        have hthis := (List.mem_filter.mp hmem).2
        rw [decide_eq_true_eq] at hthis
        rw [hk] at hthis
        exact (Option.some.inj hthis).symm
      · rintro rfl
        exact ⟨_, flight_group_of_filter_ne (List.ne_nil_of_mem hqf), hqf⟩
    · intro rs
      obtain ⟨rs', hlk⟩ :=
        @flight_lookup_of_filter_ne ds rs o d p (List.ne_nil_of_mem hqf)
      exact ⟨_, hlk, rfl⟩
  · intro ds rs o d p b h
    obtain ⟨rs', hne, hb⟩ := flight_lookup_some h
    rw [hb]
    exact List.length_pos.mpr hne
  · intro l q o d c hq hk
    have hqf : q ∈ l.filter
        (fun q' => decide (Shipping.shipKey q' = some (o, d, c))) :=
      List.mem_filter.mpr ⟨hq, by simp [hk]⟩
    constructor
    · intro k'
      constructor
      · rintro ⟨qs, hqs, hmem⟩
        obtain ⟨hfil, -⟩ := ship_group_some hqs
        rw [hfil] at hmem
        have hthis := (List.mem_filter.mp hmem).2
        rw [decide_eq_true_eq] at hthis
        rw [hk] at hthis
        have hkk := Option.some.inj hthis
        exact hkk.symm
      · rintro rfl
        exact ⟨_, ship_group_of_filter_ne (List.ne_nil_of_mem hqf), hqf⟩
    · exact ⟨_, ship_lookup_of_filter_ne (List.ne_nil_of_mem hqf), rfl⟩
  · intro l o d c b h
    obtain ⟨hne, hb⟩ := ship_lookup_some h
    rw [hb]
    exact List.length_pos.mpr hne

/-- Witness for C5 at concrete quotes and data sets. -/
theorem grouping_correctness_witness :
    ((∀ k' : String × String × String,
      (∃ qs, lookupA (Flight.groupFlightQuotes flightDataThree.flight_quotes)
        k' = some qs ∧ sampleFlightQuote 200 "USD" "NORTH_AMERICA"
          "NORTH_AMERICA" "Single" (some "https://s/1.png") ∈ qs) ↔
        k' = ("north-america", "north-america", "single")) ∧
    (∀ rs : List ℚ, ∃ b,
      Flight.lookup3 (Flight.processFlightDataToMatrix flightDataThree rs)
        "north-america" "north-america" "single" = some b ∧
      b.sampleCount = (flightDataThree.flight_quotes.filter fun q' =>
        decide (Flight.flightKey q' =
          some ("north-america", "north-america", "single"))).length)) ∧
    (0 < flightBucketHalf.sampleCount) ∧
    ((∀ k' : String × String × String,
      (∃ qs, Shipping.lookup3G (Shipping.groupShippingQuotes shipDataOne)
        k'.1 k'.2.1 k'.2.2 = some qs ∧ sampleShippingQuote 400
          "NORTH_AMERICA" "EMEA" "ST40" (some "https://s/c.png") ∈ qs) ↔
        k' = ("north-america", "emea", "40ft")) ∧
    (∃ b, Shipping.lookup3S (Shipping.loadAndProcessShippingData shipDataOne)
        "north-america" "emea" "40ft" = some b ∧
      b.sampleCount = (shipDataOne.filter fun q' =>
        decide (Shipping.shipKey q' =
          some ("north-america", "emea", "40ft"))).length)) ∧
    (0 < shipBucket12.sampleCount) :=
  ⟨grouping_correctness.1 flightDataThree
      (sampleFlightQuote 200 "USD" "NORTH_AMERICA" "NORTH_AMERICA" "Single"
        (some "https://s/1.png"))
      "north-america" "north-america" "single"
      (by with_unfolding_all decide) (by with_unfolding_all decide),
   grouping_correctness.2.1 flightDataHalf [] "north-america" "north-america"
      "single" flightBucketHalf (by with_unfolding_all decide),
   grouping_correctness.2.2.1 shipDataOne
      (sampleShippingQuote 400 "NORTH_AMERICA" "EMEA" "ST40"
        (some "https://s/c.png"))
      "north-america" "emea" "40ft"
      (by with_unfolding_all decide) (by with_unfolding_all decide),
   grouping_correctness.2.2.2 shipQuotes12 "north-america" "north-america"
      "20ft" shipBucket12 (by with_unfolding_all decide)⟩

/-- Claim C6 — counterexample.  For an unknown currency the flight converter
returns the amount unchanged, not rounded to two decimals: at amount
10.123 it returns 10.123 while the claimed two-decimal rounding of
`amount * 1.0` is 10.12. -/
theorem unknown_currency_unrounded_counterexample :
    Flight.CURRENCY_RATES "XYZ" = none ∧
    Flight.convertToUSD (10123/1000) "XYZ" = 10123/1000 ∧
    Flight.convertToUSD (10123/1000) "XYZ" ≠
      (jsRound ((10123/1000) * 1 * 100) : ℚ) / 100 := by
  refine ⟨rfl, rfl, by with_unfolding_all decide⟩

/-- Claim C6 — amended.  On an unknown currency code the flight converter
emits the warning and returns the amount unchanged (multiplier 1.0, **no**
two-decimal rounding on this path); the shipping converter silently applies
multiplier 1.0 and rounds to whole units — its code has no warning site at
all.  Neither throws (both are total functions). -/
theorem unknown_currency_amended :
    (∀ (p : ℚ) (c : String), Flight.CURRENCY_RATES c = none →
      Flight.convertToUSDW p c = (p, true)) ∧
    (∀ (p : ℚ) (c : String), Shipping.CURRENCY_RATES c = none →
      Shipping.convertToUSD p c = (jsRound p : ℚ)) ∧
    (∀ (p : ℚ) (c : String), (Shipping.convertToUSDW p c).2 = false) :=
  ⟨flight_convert_unknown, ship_convert_unknown, fun _ _ => rfl⟩

/-- Witness for the amended C6 statement at concrete inputs. -/
theorem unknown_currency_amended_witness :
    Flight.convertToUSDW 5 "XYZ" = (5, true) ∧
    Shipping.convertToUSD 5 "ZZZ" = (jsRound 5 : ℚ) ∧
    (Shipping.convertToUSDW 5 "ZZZ").2 = false :=
  ⟨unknown_currency_amended.1 5 "XYZ" rfl,
   unknown_currency_amended.2.1 5 "ZZZ" rfl,
   unknown_currency_amended.2.2 5 "ZZZ"⟩

/-- Claim C7 — counterexample.  `toUSD(x, "USD") = x` fails in the flight
domain: 10.123 USD is rounded to 10.12. -/
theorem usd_identity_counterexample :
    Flight.convertToUSD (10123/1000) "USD" ≠ 10123/1000 := by
  with_unfolding_all decide

/-- Claim C7 — amended.  `toUSD(·, C)` is monotone nondecreasing in the
amount for every currency code (not linear — each domain rounds), and
`toUSD(x, "USD") = x` exactly on the amounts representable at the domain's
rounding granularity: integer cents for flights, whole units for
shipping. -/
theorem currency_monotone_amended :
    (∀ (c : String) (x y : ℚ), x ≤ y →
      Flight.convertToUSD x c ≤ Flight.convertToUSD y c) ∧
    (∀ (c : String) (x y : ℚ), x ≤ y →
      Shipping.convertToUSD x c ≤ Shipping.convertToUSD y c) ∧
    (∀ k : ℤ, Flight.convertToUSD ((k : ℚ) / 100) "USD" = (k : ℚ) / 100) ∧
    (∀ k : ℤ, Shipping.convertToUSD (k : ℚ) "USD" = (k : ℚ)) :=
  ⟨fun c _ _ h => flight_convert_mono c h,
   fun c _ _ h => ship_convert_mono c h,
   flight_convert_usd_cents, ship_convert_usd_int⟩

/-- Witness for the amended C7 statement at concrete inputs. -/
theorem currency_monotone_amended_witness :
    ((1 : ℚ) ≤ 2 ∧ Flight.convertToUSD 1 "EUR" ≤ Flight.convertToUSD 2 "EUR") ∧
    ((1 : ℚ) ≤ 2 ∧
      Shipping.convertToUSD 1 "CAD" ≤ Shipping.convertToUSD 2 "CAD") ∧
    Flight.convertToUSD ((7 : ℤ) / 100 : ℚ) "USD" = ((7 : ℤ) : ℚ) / 100 ∧
    Shipping.convertToUSD ((7 : ℤ) : ℚ) "USD" = ((7 : ℤ) : ℚ) :=
  ⟨⟨by norm_num, currency_monotone_amended.1 "EUR" 1 2 (by norm_num)⟩,
   ⟨by norm_num, currency_monotone_amended.2.1 "CAD" 1 2 (by norm_num)⟩,
   currency_monotone_amended.2.2.1 7,
   currency_monotone_amended.2.2.2 7⟩

/-- Claim C8 — counterexample.  With no cached data at all — so no
`AggregationResult` exists anywhere — the accommodation cell
india→india/single holds 600 (static base cost times multiplier), not the
zero sentinel the claim requires for cells without an underlying
`AggregationResult`. -/
theorem accommodation_cell_not_zero_counterexample :
    CostGen.lookupCell (CostGen.generateCostMatrix none none).accommodation
        "india" "india" "single" = some 600 ∧
    (600 : ℚ) ≠ 0 := by
  refine ⟨by with_unfolding_all decide, by norm_num⟩

/-- Every entry of the static accommodation base-cost table is present and
at least 1 for region ids drawn from the fixed enumeration. -/
theorem accommodationBase_ge_one {ro rd : CostGen.Region}
    (hro : ro ∈ CostGen.REGIONS) (hrd : rd ∈ CostGen.REGIONS) :
    ∃ base, CostGen.accommodationBase ro.id rd.id = some base ∧ 1 ≤ base := by
  simp only [CostGen.REGIONS, List.mem_cons, List.not_mem_nil,
    or_false] at hro hrd
  rcases hro with rfl | rfl | rfl | rfl | rfl <;>
    rcases hrd with rfl | rfl | rfl | rfl | rfl <;>
      exact ⟨_, rfl, by norm_num⟩

/-- Every multiplier of the fixed `FAMILY_SIZES` enumeration is at least 1. -/
theorem familySize_multiplier_ge_one {fs : CostGen.FamilySize}
    (hfs : fs ∈ CostGen.FAMILY_SIZES) : 1 ≤ fs.multiplier := by
  simp only [CostGen.FAMILY_SIZES, List.mem_cons, List.not_mem_nil,
    or_false] at hfs
  rcases hfs with rfl | rfl | rfl | rfl <;> norm_num

/-- The JS rounding of a number at least 1 is at least 1. -/
theorem one_le_jsRound {x : ℚ} (h : 1 ≤ x) : 1 ≤ jsRound x := by
  unfold jsRound
  exact Int.le_floor.mpr (by push_cast; linarith)

/-- Claim C8 — amended.  For every cache state the generated matrix has a
defined numeric entry at every (region, region, category) triple of the
fixed enumerations.  Flight cells carry the underlying bucket's
`averagePriceUSD` when a bucket exists and the zero sentinel when none
does; shipping cells carry `averagePriceUSD || 0`, i.e. the zero sentinel
both when no bucket exists and when an existing bucket's average is zero;
accommodation cells are filled from the static base-cost table scaled by
the family-size multiplier — nonzero for every fixed region pair —
regardless of any `AggregationResult`. -/
theorem dense_coverage_amended :
    ∀ (fm : Option Flight.ProcessedFlightMatrix)
      (sm : Option Shipping.ProcessedShippingMatrix)
      (ro rd : CostGen.Region) (fs : CostGen.FamilySize) (ct : String),
      ro ∈ CostGen.REGIONS → rd ∈ CostGen.REGIONS →
      fs ∈ CostGen.FAMILY_SIZES → ct ∈ CostGen.CONTAINER_TYPE_IDS →
      (∃ v, CostGen.lookupCell (CostGen.generateCostMatrix fm sm).flights
          ro.id rd.id fs.id = some v ∧
        (fm = none → v = 0) ∧
        (∀ pm, fm = some pm → Flight.lookup3 pm ro.id rd.id fs.id = none →
          v = 0) ∧
        (∀ pm bkt, fm = some pm →
          Flight.lookup3 pm ro.id rd.id fs.id = some bkt →
          v = bkt.averagePriceUSD)) ∧
      (∃ v, CostGen.lookupCell
          (CostGen.generateCostMatrix fm sm).accommodation
          ro.id rd.id fs.id = some v ∧
        (∀ base, CostGen.accommodationBase ro.id rd.id = some base →
          v = (jsRound (base * fs.multiplier) : ℚ)) ∧
        v ≠ 0) ∧
      (∃ v, CostGen.lookupCell (CostGen.generateCostMatrix fm sm).shipping
          ro.id rd.id ct = some v ∧
        (sm = none → v = 0) ∧
        (∀ m, sm = some m → Shipping.lookup3S m ro.id rd.id ct = none →
          v = 0) ∧
        (∀ m bkt, sm = some m →
          Shipping.lookup3S m ro.id rd.id ct = some bkt →
          v = if bkt.averagePriceUSD = 0 then 0
            else bkt.averagePriceUSD)) := by
  intro fm sm ro rd fs ct hro hrd hfs hct
  refine ⟨?_, ?_, ?_⟩
  · refine ⟨_, lookupCell_flights fm sm hro hrd hfs, ?_, ?_, ?_⟩
    · rintro rfl
      rfl
    · rintro pm rfl hnone
      simp [CostGen.flightCellValue, hnone]
    · rintro pm bkt rfl hsome
      simp [CostGen.flightCellValue, hsome]
  · refine ⟨_, lookupCell_accommodation fm sm hro hrd hfs, ?_, ?_⟩
    · intro base hbase
      simp [CostGen.accommodationCellValue, hbase]
    · obtain ⟨base, hbase, hb1⟩ := accommodationBase_ge_one hro hrd
      have hm1 := familySize_multiplier_ge_one hfs
      have h1 : (1 : ℚ) ≤ base * fs.multiplier := by nlinarith
      have h2 : (1 : ℤ) ≤ jsRound (base * fs.multiplier) := one_le_jsRound h1
      simp only [CostGen.accommodationCellValue, hbase]
      exact Int.cast_ne_zero.mpr (by omega)
  · refine ⟨_, lookupCell_shipping fm sm hro hrd hct, ?_, ?_, ?_⟩
    · rintro rfl
      rfl
    · rintro m rfl hnone
      simp [CostGen.shippingCellValue, hnone, CostGen.jsOrZero]
    · rintro m bkt rfl hsome
      simp [CostGen.shippingCellValue, hsome, CostGen.jsOrZero]

/-- Witness for the amended C8 statement at a concrete cache state (a cached
shipping matrix with one zero-average bucket, no flight matrix) and cell. -/
theorem dense_coverage_amended_witness :
    (∃ v, CostGen.lookupCell
        (CostGen.generateCostMatrix none (some shipMatrixZero)).flights
        "north-america" "north-america" "couple" = some v ∧
      ((none : Option Flight.ProcessedFlightMatrix) = none → v = 0) ∧
      (∀ pm, (none : Option Flight.ProcessedFlightMatrix) = some pm →
        Flight.lookup3 pm "north-america" "north-america" "couple" = none →
        v = 0) ∧
      (∀ pm bkt, (none : Option Flight.ProcessedFlightMatrix) = some pm →
        Flight.lookup3 pm "north-america" "north-america" "couple" =
          some bkt →
        v = bkt.averagePriceUSD)) ∧
    (∃ v, CostGen.lookupCell
        (CostGen.generateCostMatrix none (some shipMatrixZero)).accommodation
        "north-america" "north-america" "couple" = some v ∧
      (∀ base, CostGen.accommodationBase "north-america" "north-america" =
          some base →
        v = (jsRound (base * (18/10 : ℚ)) : ℚ)) ∧
      v ≠ 0) ∧
    (∃ v, CostGen.lookupCell
        (CostGen.generateCostMatrix none (some shipMatrixZero)).shipping
        "north-america" "north-america" "20ft" = some v ∧
      (some shipMatrixZero =
          (none : Option Shipping.ProcessedShippingMatrix) → v = 0) ∧
      (∀ m, some shipMatrixZero = some m →
        Shipping.lookup3S m "north-america" "north-america" "20ft" = none →
        v = 0) ∧
      (∀ m bkt, some shipMatrixZero = some m →
        Shipping.lookup3S m "north-america" "north-america" "20ft" =
          some bkt →
        v = if bkt.averagePriceUSD = 0 then 0
          else bkt.averagePriceUSD)) :=
  dense_coverage_amended none (some shipMatrixZero)
    { id := "north-america", name := "North America", code := "NA",
      countries := ["United States", "Canada", "Mexico"] }
    { id := "north-america", name := "North America", code := "NA",
      countries := ["United States", "Canada", "Mexico"] }
    { id := "couple", label := "Couple", adults := 2, children := 0,
      multiplier := 18/10 }
    "20ft" (by with_unfolding_all decide) (by with_unfolding_all decide)
    (by with_unfolding_all decide) (by with_unfolding_all decide)
